import Mathlib

/-!
Verification of the option-resolution and argument-compilation pipeline of
src/converter/avcodecs.py (a Python 2 module; the print statement on line 235
fixes the language version, so integer division rounds toward negative
infinity and dict values are dynamically typed).

Modelling conventions:
- Python values are the inductive PyVal; Python floats are modelled as exact
  rationals (all floats flowing through this pipeline are produced from
  decimal literals, int conversion, or ratios of ints, and every comparison
  or truncation the code performs on them is exact at the inputs exercised).
- Raised exceptions are modelled by Except PyErr; the bare except blocks of
  the source correspond to the Option-returning helpers.
- Dicts are association lists; the source never relies on dict iteration
  order except in safe_options, whose insertion order we reproduce.
- logger.error / print diagnostics are side effects with no observable value;
  they are modelled only through the exceptions their argument expressions
  can raise (evaluated before any list mutation, as in the source).
-/

namespace AVC

/-- Exact rationals with a positive (by construction) denominator, not
normalized, standing in for Python floats.  Every float this pipeline
builds comes from an int, a decimal literal, or a ratio of ints, and
every operation the code applies to floats (comparison, multiplication
by an int, truncation, rounding to two decimals) is exact on such values,
so the IEEE doubles of the source and these fractions agree at every
observable point.  A bespoke structure instead of the library rationals
keeps all arithmetic in plain integer operations. -/
structure PyQ where
  num : Int
  den : Int
deriving DecidableEq, Repr

/-- Embed an int into the float model. -/
def PyQ.ofInt (n : Int) : PyQ := ⟨n, 1⟩

/-- Float comparison, by cross multiplication (denominators positive). -/
def PyQ.blt (a b : PyQ) : Bool := a.num * b.den < b.num * a.den

/-- Float equality, by cross multiplication. -/
def PyQ.beqv (a b : PyQ) : Bool := a.num * b.den == b.num * a.den

/-- int() truncation toward zero of a float. -/
def PyQ.trunc (a : PyQ) : Int := Int.tdiv a.num a.den

/-- float(a) / float(b) for ints a, b; the b = 0 case is unreachable (all
division sites are guarded by truthiness checks). -/
def floatDiv (a b : Int) : PyQ :=
  if b = 0 then ⟨0, 1⟩ else if b < 0 then ⟨-a, -b⟩ else ⟨a, b⟩

/-- Python runtime values that occur in this module. -/
inductive PyVal where
  | vstr (s : String)
  | vint (n : Int)
  | vfloat (q : PyQ)
  | vbool (b : Bool)
  | vnone
deriving DecidableEq, Repr

/-- The declared option types (values of the encoder_options dicts). -/
inductive PyType where
  | tstr
  | tint
  | tfloat
  | tbool
deriving DecidableEq, Repr

/-- Exceptions raised (uncaught) somewhere in the module.  The ValueError
carrying the message invalid codec name (BaseCodec.parse_options, line 17)
is the hard failure the spec calls InvalidCodec and gets its own
constructor; every other ValueError site is a distinct constructor. -/
inductive PyErr where
  | invalidCodec
  | valueError
  | typeError
  | attributeError
  | keyError
  | unboundLocal
  | assertionError
deriving DecidableEq, Repr

instance {ε α : Type} [DecidableEq ε] [DecidableEq α] : DecidableEq (Except ε α)
  | .error e, .error f =>
    if h : e = f then .isTrue (by rw [h])
    else .isFalse (fun hh => by cases hh; exact h rfl)
  | .error _, .ok _ => .isFalse (fun h => by cases h)
  | .ok _, .error _ => .isFalse (fun h => by cases h)
  | .ok a, .ok b =>
    if h : a = b then .isTrue (by rw [h])
    else .isFalse (fun hh => by cases hh; exact h rfl)

/-- Numeric view used by Python 2 comparisons and arithmetic: ints, floats
and bools (False=0, True=1) all compare numerically. -/
def pyToQ? : PyVal → Option PyQ
  | .vint n => some (PyQ.ofInt n)
  | .vfloat q => some q
  | .vbool b => some (PyQ.ofInt (if b then 1 else 0))
  | _ => Option.none

/-- Python 2 cross-type ordering rank: None sorts below numbers, numbers
below strings (CPython 2 compares unequal types by type name, and the
NoneType special case puts None first). -/
def pyRank : PyVal → Nat
  | .vnone => 0
  | .vstr _ => 2
  | _ => 1

/-- Python 2 equality ==: numerics compare by value (True == 1, 2.0 == 2),
strings by content, None only to None; values of different kinds are
unequal. -/
def pyEq (a b : PyVal) : Bool :=
  match pyToQ? a, pyToQ? b with
  | some x, some y => PyQ.beqv x y
  | _, _ =>
    match a, b with
    | .vstr s, .vstr t => s == t
    | .vnone, .vnone => true
    | _, _ => false

/-- Python 2 less-than (total, never raises): numeric pairs by value,
string pairs lexicographically, otherwise by type rank. -/
def pyLT (a b : PyVal) : Bool :=
  match pyToQ? a, pyToQ? b with
  | some x, some y => PyQ.blt x y
  | _, _ =>
    match a, b with
    | .vstr s, .vstr t => decide (s < t)
    | _, _ => decide (pyRank a < pyRank b)

/-- Python 2 less-or-equal. -/
def pyLE (a b : PyVal) : Bool :=
  pyLT a b || pyEq a b

/-- Whether a runtime value is a Python string (for stating the
ArgumentList stringness invariant). -/
def pyIsStr : PyVal → Bool
  | .vstr _ => true
  | _ => false

/-- Python truthiness (used by if v and "if not v" in the source). -/
def pyTruthy : PyVal → Bool
  | .vstr s => s ≠ ""
  | .vint n => n ≠ 0
  | .vfloat q => q.num ≠ 0
  | .vbool b => b
  | .vnone => false

/-- Truthiness of an optional int local (None and 0 are falsy). -/
def truthyOI : Option Int → Bool
  | some n => n ≠ 0
  | Option.none => false

/-- Smallest power of ten the denominator divides (every float this module
prints has a denominator dividing a power of ten: they come from decimal
literals, ints, or round(x, 2)). -/
def decExpD (den : Nat) : Option Nat :=
  (List.range 18).find? (fun k => 10 ^ k % den == 0)

/-- Left-pad a digit string with zeros to the given length. -/
def padZeros (s : String) (k : Nat) : String :=
  if s.length ≥ k then s else String.mk (List.replicate (k - s.length) '0') ++ s

/-- Drop trailing zero digits but keep at least one digit. -/
def stripTrailZeros (s : String) : String :=
  String.mk (((s.toList.reverse).dropWhile (fun c => c = '0')).reverse)

/-- Python 2 str() of a float, for exact decimals: minimal digits with at
least one fractional digit (str(23.5) is 23.5, str(23.0) is 23.0).
CPython prints at most 12 significant digits; every float this module
formats has a short exact decimal expansion, where the two agree. -/
def pyFloatStr (q : PyQ) : String :=
  let sgn := if q.num < 0 then "-" else ""
  let na := q.num.natAbs
  let da := q.den.natAbs
  match decExpD da with
  | some 0 => sgn ++ toString (na / da) ++ ".0"
  | some k =>
    let n := na * 10 ^ k / da
    let ip := n / 10 ^ k
    let fp := n % 10 ^ k
    let fs := stripTrailZeros (padZeros (toString fp) k)
    let fs := if fs = "" then "0" else fs
    sgn ++ toString ip ++ "." ++ fs
  | Option.none => sgn ++ toString na ++ "div" ++ toString da

/-- Python 2 str() of any value in this module. -/
def pyStr : PyVal → String
  | .vstr s => s
  | .vint n => toString n
  | .vfloat q => pyFloatStr q
  | .vbool b => if b then "True" else "False"
  | .vnone => "None"

/-- round(x, 2) of Python 2: to two decimals, halves away from zero.
With a = 100 num and b = den positive, the rounded magnitude is
floor(|a| / b + 1 / 2) = fdiv (2 |a| + b) (2 b). -/
def pyRound2 (q : PyQ) : PyQ :=
  let a := q.num * 100
  let b := q.den
  let r := Int.fdiv (2 * (a.natAbs : Int) + b) (2 * b)
  ⟨if a < 0 then -r else r, 100⟩

/-- Digit-string value, for int()/float() parsing. -/
def digitsVal? (cs : List Char) : Option Nat :=
  if cs ≠ [] ∧ cs.all Char.isDigit then
    some (cs.foldl (fun a c => a * 10 + (c.toNat - 48)) 0)
  else Option.none

/-- Whitespace characters stripped by int() / float() string conversion. -/
def isSpc (c : Char) : Bool :=
  c = ' ' || c = '\t' || c = '\n' || c = '\r'

/-- Strip leading and trailing whitespace from a character list. -/
def trimChars (cs : List Char) : List Char :=
  ((cs.dropWhile isSpc).reverse.dropWhile isSpc).reverse

/-- Split a character list at every occurrence of the given character
(str.split semantics: n separators give n+1 pieces). -/
def splitChar (c : Char) : List Char → List (List Char)
  | [] => [[]]
  | x :: rest =>
    match splitChar c rest with
    | [] => [[]]
    | h :: t => if x = c then [] :: h :: t else (x :: h) :: t

/-- int() applied to a string (optional sign, decimal digits, surrounding
whitespace allowed); Option.none models the ValueError the bare except
blocks catch. -/
def parseIntStr (s : String) : Option Int :=
  match trimChars s.toList with
  | '-' :: rest => (digitsVal? rest).map (fun n => -(n : Int))
  | '+' :: rest => (digitsVal? rest).map (fun n => (n : Int))
  | cs => (digitsVal? cs).map (fun n => (n : Int))

/-- float() applied to a string: plain decimal literals (exponent forms do
not occur in this pipeline and are rejected). -/
def parseFloatStr (s : String) : Option PyQ :=
  let core : List Char → Option PyQ := fun t =>
    match splitChar '.' t with
    | [a] => (digitsVal? a).map (fun n => PyQ.ofInt (n : Int))
    | [a, b] =>
      if a = [] ∧ b = [] then Option.none
      else if a.all Char.isDigit ∧ b.all Char.isDigit then
        let ia : Nat := (digitsVal? a).getD 0
        let ib : Nat := (digitsVal? b).getD 0
        some ⟨(ia * 10 ^ b.length + ib : Nat), (10 ^ b.length : Nat)⟩
      else Option.none
    | _ => Option.none
  match trimChars s.toList with
  | '-' :: rest => (core rest).map (fun q => ⟨-q.num, q.den⟩)
  | '+' :: rest => core rest
  | cs => core cs

/-- int() applied to any value, with the exception it raises on failure
(ValueError for bad strings, TypeError for None); used where the source
calls int() outside a try block. -/
def pyIntE : PyVal → Except PyErr Int
  | .vint n => .ok n
  | .vbool b => .ok (if b then 1 else 0)
  | .vfloat q => .ok q.trunc
  | .vstr s =>
    match parseIntStr s with
    | some n => .ok n
    | Option.none => .error .valueError
  | .vnone => .error .typeError

/-- Type coercion of safe_options (line 35, safe[k] = typ(v)); Option.none
is a coercion failure swallowed by the bare except. -/
def coerce : PyType → PyVal → Option PyVal
  | .tstr, v => some (.vstr (pyStr v))
  | .tint, v =>
    match pyIntE v with
    | .ok n => some (.vint n)
    | .error _ => Option.none
  | .tfloat, .vfloat q => some (.vfloat q)
  | .tfloat, .vint n => some (.vfloat (PyQ.ofInt n))
  | .tfloat, .vbool b => some (.vfloat (PyQ.ofInt (if b then 1 else 0)))
  | .tfloat, .vstr s => (parseFloatStr s).map .vfloat
  | .tfloat, .vnone => Option.none
  | .tbool, v => some (.vbool (pyTruthy v))

/-- A value is of the Python type a declared option requires. -/
def hasPyType : PyVal → PyType → Prop
  | .vstr _, .tstr => True
  | .vint _, .tint => True
  | .vfloat _, .tfloat => True
  | .vbool _, .tbool => True
  | _, _ => False

instance (v : PyVal) (t : PyType) : Decidable (hasPyType v t) := by
  cases v <;> cases t <;> simp [hasPyType] <;> infer_instance

/-! Association-list dictionaries. -/

/-- Option dictionaries: association lists keyed by option name. -/
abbrev Sdict := List (String × PyVal)

/-- Declared encoder_options of a codec. -/
abbrev Schema := List (String × PyType)

/-- Dict lookup (first binding wins; all dicts built here have unique keys). -/
def dGet? : Sdict → String → Option PyVal
  | [], _ => Option.none
  | (k, v) :: rest, key => if k = key then some v else dGet? rest key

/-- Dict lookup with default, modelling safe.get(key, dflt). -/
def dGetD (d : Sdict) (key : String) (dflt : PyVal) : PyVal :=
  (dGet? d key).getD dflt

/-- Key membership, modelling key in safe. -/
def dHas (d : Sdict) (key : String) : Bool :=
  (dGet? d key).isSome

/-- Dict update safe[k] = v: replace the existing binding else append. -/
def dSet : Sdict → String → PyVal → Sdict
  | [], key, v => [(key, v)]
  | (k, w) :: rest, key, v =>
    if k = key then (k, v) :: rest else (k, w) :: dSet rest key v

/-- Dict deletion del safe[k]. -/
def dDel : Sdict → String → Sdict
  | [], _ => []
  | (k, w) :: rest, key =>
    if k = key then dDel rest key else (k, w) :: dDel rest key

/-- Schema lookup. -/
def sLookup : Schema → String → Option PyType
  | [], _ => Option.none
  | (k, t) :: rest, key => if k = key then some t else sLookup rest key

/-- One iteration of the safe_options loop (lines 31-37): keep a declared
key whose value coerces, silently drop everything else. -/
def safeStep (schema : Schema) (safe : Sdict) (kv : String × PyVal) : Sdict :=
  match sLookup schema kv.1 with
  | some t =>
    match coerce t kv.2 with
    | some v => dSet safe kv.1 v
    | Option.none => safe
  | Option.none => safe

/-- BaseCodec.safe_options (lines 26-39). -/
def safeOptions (schema : Schema) (opts : Sdict) : Sdict :=
  opts.foldl (safeStep schema) []

/-! Range/enum validation (the in-place deletions of parse_options). -/

/-- One silent-drop step: if the key is present and its value fails the
predicate, delete it (the if k in safe / del safe[k] pattern). -/
def stepDel (key : String) (bad : PyVal → Bool) (s : Sdict) : Sdict :=
  match dGet? s key with
  | some v => if bad v then dDel s key else s
  | Option.none => s

/-- The shared shape of every numeric range test: v < lo or v > hi. -/
def badOutside (lo hi : PyVal) (v : PyVal) : Bool :=
  pyLT v lo || pyLT hi v

/-- AudioCodec.parse_options lines 81-94: channels in [1,12], bitrate in
[8,512], samplerate in [1000,50000]. -/
def audioRangeCheck (s : Sdict) : Sdict :=
  stepDel "samplerate" (badOutside (.vint 1000) (.vint 50000))
    (stepDel "bitrate" (badOutside (.vint 8) (.vint 512))
      (stepDel "channels" (badOutside (.vint 1) (.vint 12)) s))

/-- VideoCodec.parse_options lines 333-346: fps in [1,120], bitrate in
[0.1,200], bufsize in [1,10000]. -/
def videoRangeCheck (s : Sdict) : Sdict :=
  stepDel "bufsize" (badOutside (.vint 1) (.vint 10000))
    (stepDel "bitrate" (badOutside (.vfloat ⟨1, 10⟩) (.vfloat ⟨200, 1⟩))
      (stepDel "fps" (badOutside (.vint 1) (.vint 120)) s))

/-- SubtitleCodec.parse_options lines 137-150: forced and default in {0,1},
language length at most 3.  len() of a non-string raises TypeError; the
language value is always a coerced string, so the error arm is
unreachable from the pipeline. -/
def subLangCheck (d : Sdict) : Except PyErr Sdict :=
  match dGet? d "language" with
  | some (.vstr t) => .ok (if t.length > 3 then dDel d "language" else d)
  | some _ => .error .typeError
  | Option.none => .ok d

/-- The forced / default deletions followed by the language check. -/
def subRangeCheck (s : Sdict) : Except PyErr Sdict :=
  subLangCheck (stepDel "default" (badOutside (.vint 0) (.vint 1))
    (stepDel "forced" (badOutside (.vint 0) (.vint 1)) s))

/-- The max_width / max_height local check of VideoCodec.parse_options
(lines 350-362): out of [lo,hi] becomes None, odd values are bumped to
even. -/
def checkDimVal (lo hi w : Int) : Option Int :=
  if w < lo ∨ w > hi then Option.none
  else if w % 2 ≠ 0 then some (w + 1) else some w

/-- Reads the (coerced, hence int) max dimension from safe and applies
checkDimVal; absent key gives None as in the source. -/
def maxDimOf (s : Sdict) (key : String) (hi : Int) : Option Int :=
  match dGet? s key with
  | some (.vint w) => checkDimVal 16 hi w
  | _ => Option.none

/-! Geometry resolver: VideoCodec._aspect_corrections (lines 230-326).
All arithmetic is Python 2: the division sh / sw on ints floors toward
negative infinity, int() of a float truncates toward zero, and
(h0 - max_height) / 2 on ints also floors. -/

/-- The six recognized sizing policies (line 234). -/
def policyList : List String :=
  ["Fit", "Fill", "Stretch", "Keep", "ShrinkToFit", "ShrinkToFill"]

/-- Python 2 integer division of ints (floor division). -/
def pyIDiv (a b : Int) : Int := Int.fdiv a b

/-- int(x * factor) where factor = float(num) / float(den): the exact value
is x num / den, and int() truncates toward zero. -/
def scaleTrunc (x num den : Int) : Int :=
  Int.tdiv (x * num) den

/-- The crop=W:H:D:0 fragment built by the Fill / ShrinkToFill branches. -/
def cropFragment (mw mh d : Int) : String :=
  "crop=" ++ toString mw ++ ":" ++ toString mh ++ ":" ++ toString d ++ ":0"

/-- Core of _aspect_corrections once all four dimensions are present
(non-zero ints) and the policy is recognized.  The float(sh / sw)
comparisons floor-divide first (Python 2 ints), so the branch choice
compares an integer ratio with max_height.  The ShrinkToFill fallback
(line 324) reads the never-assigned local factor: UnboundLocalError. -/
def aspectCore (sw sh mw mh : Int) (policy : String) :
    Except PyErr (Option Int × Option Int × Option String) :=
  if policy = "Fit" then
    if pyIDiv sh sw = mh then .ok (some mw, some mh, Option.none)
    else if pyIDiv sh sw < mh then
      .ok (some (scaleTrunc sw mh sh), some mh, Option.none)
    else
      .ok (some mw, some (scaleTrunc sh mw sw), Option.none)
  else if policy = "Fill" then
    if pyIDiv sh sw = mh then .ok (some mw, some mh, Option.none)
    else if pyIDiv sh sw < mh then
      let h0 := scaleTrunc sh mw sw
      let dh := pyIDiv (h0 - mh) 2
      .ok (some mw, some h0, some (cropFragment mw mh dh))
    else
      let w0 := scaleTrunc sw mh sh
      let dw := pyIDiv (w0 - mw) 2
      .ok (some w0, some mh, some (cropFragment mw mh dw))
  else if policy = "Stretch" then
    .ok (some mw, some mh, Option.none)
  else if policy = "Keep" then
    .ok (some sw, some sh, Option.none)
  else if policy = "ShrinkToFit" then
    if sh > mh ∨ sw > mw then
      if pyIDiv sh sw = mh then .ok (some mw, some mh, Option.none)
      else if pyIDiv sh sw < mh then
        .ok (some (scaleTrunc sw mh sh), some mh, Option.none)
      else
        .ok (some mw, some (scaleTrunc sh mw sw), Option.none)
    else
      .ok (some sw, some sh, Option.none)
  else if policy = "ShrinkToFill" then
    if sh < mh ∨ sw < mw then
      if pyIDiv sh sw = mh then .ok (some mw, some mh, Option.none)
      else if pyIDiv sh sw < mh then
        let h0 := scaleTrunc sh mw sw
        let dh := pyIDiv (h0 - mh) 2
        .ok (some mw, some h0, some (cropFragment mw mh dh))
      else
        let w0 := scaleTrunc sw mh sh
        let dw := pyIDiv (w0 - mw) 2
        .ok (some w0, some mh, some (cropFragment mw mh dw))
    else
      .error .unboundLocal
  else
    .error .assertionError

/-- VideoCodec._aspect_corrections: if any of the four dimensions is falsy
(None or 0) or the policy is unrecognized, echo the source values back
with no filter (lines 231-236); otherwise run the policy branches. -/
def aspectCorrections (sw sh mw mh : Option Int) (policy : String) :
    Except PyErr (Option Int × Option Int × Option String) :=
  if ¬ truthyOI mw ∨ ¬ truthyOI mh ∨ ¬ truthyOI sw ∨ ¬ truthyOI sh then
    .ok (sw, sh, Option.none)
  else if policy ∉ policyList then
    .ok (sw, sh, Option.none)
  else
    match sw, sh, mw, mh with
    | some sw, some sh, some mw, some mh => aspectCore sw sh mw mh policy
    | _, _, _, _ => .ok (sw, sh, Option.none)

/-- VideoCodec._div_by_2 (lines 227-228) as applied on line 391-392: the
argument may be None, and None % 2 raises TypeError in Python 2. -/
def divBy2E : Option Int → Except PyErr Int
  | some d => .ok (if d % 2 ≠ 0 then d + 1 else d)
  | Option.none => .error .typeError

/-! Filter-chain accumulator: _extend_af (lines 63-74) and _extend_vf
(lines 214-225) are the same routine over different flags. -/

/-- Append a filter fragment: falsy values are ignored; if the flag is
already in the list the element after its first occurrence is rewritten
to old,new (str-formatting both); otherwise flag and the raw value are
appended.  The index-out-of-range arm is unreachable because the flag is
only ever inserted together with its value. -/
def extendFilter (flag : String) (l : List PyVal) (v : PyVal) : List PyVal :=
  if pyTruthy v then
    match l.findIdx? (fun x => pyEq x (.vstr flag)) with
    | some i =>
      match l.get? (i + 1) with
      | some cur => l.set (i + 1) (.vstr (pyStr cur ++ "," ++ pyStr v))
      | Option.none => l
    | Option.none => l ++ [.vstr flag, v]
  else l

/-- VideoCodec._autorotate (lines 206-212): dict lookup with int keys via
numeric equality; src_rotate is always a coerced int here. -/
def autorotateVal : PyVal → PyVal
  | .vint 90 => .vstr "transpose=1"
  | .vint 180 => .vstr "transpose=2,transpose=2"
  | .vint 270 => .vstr "transpose=2"
  | _ => .vnone

/-- Crop string parse of parse_options lines 366-369: exactly four
colon-separated pieces whose first two are ints; Option.none models the
caught unpack/conversion errors. -/
def pyCropParse (s : String) : Option (Int × Int) :=
  match splitChar ':' s.toList with
  | [a, b, _, _] =>
    match parseIntStr (String.mk a), parseIntStr (String.mk b) with
    | some x, some y => some (x, y)
    | _, _ => Option.none
  | _ => Option.none

/-- The crop stage of parse_options (lines 364-376): on parse failure the
crop key is deleted; on success each dimension outside [16,3000] becomes
None.  A non-string crop value would raise AttributeError inside the try
and is likewise deleted (the value is a coerced string anyway). -/
def cropStage (safe : Sdict) : Sdict × Option Int × Option Int :=
  match dGet? safe "crop" with
  | some (.vstr cs) =>
    match pyCropParse cs with
    | some (x, y) =>
      (safe,
        if x < 16 ∨ x > 3000 then Option.none else some x,
        if y < 16 ∨ y > 3000 then Option.none else some y)
    | Option.none => (dDel safe "crop", Option.none, Option.none)
  | some _ => (dDel safe "crop", Option.none, Option.none)
  | Option.none => (safe, Option.none, Option.none)

/-- safe.get of an int-typed key, as Option Int (src_width / src_height
are coerced ints whenever present). -/
def dGetInt? (d : Sdict) (key : String) : Option Int :=
  match dGet? d key with
  | some (.vint n) => some n
  | _ => Option.none

/-- Sizing-policy selection (lines 385-388): default Keep, overridden only
by a recognized policy string. -/
def policyOf (safe : Sdict) : String :=
  match dGet? safe "sizing_policy" with
  | some (.vstr p) => if p ∈ policyList then p else "Keep"
  | _ => "Keep"

/-- Option String to the PyVal stored under aspect_filters. -/
def optStrToVal : Option String → PyVal
  | some s => .vstr s
  | Option.none => .vnone

/-! Codec-variant hooks (_codec_specific_parse_options and
_codec_specific_produce_ffmpeg_list overrides). -/

/-- VorbisCodec (lines 525-529): note the quality value is appended raw,
as the int it is, not stringified. -/
def vorbisHook (safe : Sdict) : List PyVal :=
  match dGet? safe "quality" with
  | some v => [.vstr "-qscale:a", v]
  | Option.none => []

/-- TheoraCodec (lines 606-610): raw int quality again. -/
def theoraHook (safe : Sdict) : List PyVal :=
  match dGet? safe "quality" with
  | some v => [.vstr "-qscale:v", v]
  | Option.none => []

/-- AacCodec (lines 538-541). -/
def aacHook (_ : Sdict) : List PyVal :=
  [.vstr "-strict", .vstr "experimental"]

/-- H264Codec (lines 975-1006). -/
def h264Hook (safe : Sdict) : List PyVal :=
  let app := fun (l : List PyVal) (key flag : String) (raw : Bool) =>
    match dGet? safe key with
    | some v => l ++ [.vstr flag, if raw then v else .vstr (pyStr v)]
    | Option.none => l
  let l := app [] "preset" "-preset" true
  let l := app l "quality" "-crf" false
  let l := app l "profile" "-profile:v" true
  let l := app l "tune" "-tune" true
  let l := app l "level" "-level" true
  let l := app l "max_reference_frames" "-refs" false
  let l := app l "max_rate" "-maxrate" false
  let l := app l "max_frames_between_keyframes" "-g" false
  let l := app l "qmin" "-qmin" false
  let l := app l "qcomp" "-qcomp" false
  let l := app l "keyint_min" "-keyint_min" false
  let l := app l "subq" "-subq" false
  let l := app l "b-pyramid" "-b-pyramid" false
  let l := app l "trellis" "-trellis" false
  l

/-- Ffv1Codec (lines 1066-1081). -/
def ffv1Hook (safe : Sdict) : List PyVal :=
  let app := fun (l : List PyVal) (key flag : String) =>
    match dGet? safe key with
    | some v => l ++ [.vstr flag, .vstr (pyStr v)]
    | Option.none => l
  let l := app [] "level" "-level"
  let l := app l "coder" "-coder"
  let l := app l "context" "-context"
  let l := app l "g" "-g"
  let l := app l "slices" "-slices"
  let l := app l "slicecrc" "-slicecrc"
  l

/-- Python 2 percent-d formatting of one value: ints directly, floats and
bools via int conversion, anything else raises TypeError. -/
def pyFmtD : PyVal → Except PyErr String
  | .vint n => .ok (toString n)
  | .vbool b => .ok (if b then "1" else "0")
  | .vfloat q => .ok (toString q.trunc)
  | _ => .error .typeError

/-- MpegCodec._codec_specific_parse_options (lines 1093-1106): prepend an
aspect=W:H fragment to the pending aspect filters.  The max_width,
max_height and aspect_filters keys are always present when this runs
(parse_options sets them first); absent keys raise KeyError. -/
def mpegPre (safe : Sdict) : Except PyErr Sdict :=
  match dGet? safe "max_width" with
  | Option.none => .error .keyError
  | some w =>
    match dGet? safe "max_height" with
    | Option.none => .error .keyError
    | some h =>
      if pyTruthy w && pyTruthy h then
        match dGet? safe "aspect_filters" with
        | Option.none => .error .keyError
        | some filt =>
          match pyFmtD w, pyFmtD h with
          | .ok ws, .ok hs =>
            let tmp := "aspect=" ++ ws ++ ":" ++ hs
            if filt = .vnone then .ok (dSet safe "aspect_filters" (.vstr tmp))
            else
              match filt with
              | .vstr fs => .ok (dSet safe "aspect_filters" (.vstr (tmp ++ "," ++ fs)))
              | _ => .error .typeError
          | _, _ => .error .typeError
      else .ok safe

/-! The two nvenc hooks.  Each guarded field of the source is one helper
below; invalid values are logged (the log argument is evaluated first and
may itself raise) and replaced by the documented default, except where the
source slips (missing extend for delay, exntend typo for tier, string
concatenation with an int for the hevc rc-lookahead, mangled key for the
hevc surfaces message). -/

/-- A field checked against an enumerated string set, appending the raw
value when valid and a default otherwise; the log concatenation value +
message raises TypeError for non-strings. -/
def enumStrField (flag : String) (allowed : List String) (dflt : String)
    (v : PyVal) : Except PyErr (List PyVal) :=
  if allowed.any (fun a => pyEq v (.vstr a)) then .ok [.vstr flag, v]
  else
    match v with
    | .vstr _ => .ok [.vstr flag, .vstr dflt]
    | _ => .error .typeError

/-- The hevc tier field (lines 832-837): valid appends raw; invalid logs,
then calls the nonexistent list method exntend: AttributeError. -/
def tierField (v : PyVal) : Except PyErr (List PyVal) :=
  if ["main", "high"].any (fun a => pyEq v (.vstr a)) then .ok [.vstr "-tier", v]
  else
    match v with
    | .vstr _ => .error .attributeError
    | _ => .error .typeError

/-- An int field with a lower bound, stringified when valid; the default is
None for the delay field, whose invalid arm only logs (lines 700-704 and
874-878) and appends nothing. -/
def intGeField (flag : String) (lo : Int) (dflt : Option String)
    (v : PyVal) : Except PyErr (List PyVal) :=
  if pyLE (.vint lo) v then .ok [.vstr flag, .vstr (pyStr v)]
  else
    match dflt with
    | some d => .ok [.vstr flag, .vstr d]
    | Option.none => .ok []

/-- A bool field checked with type(v) == bool (h264 nvenc style): valid
emits str(int(v)); otherwise the log argument str(int(v)) is evaluated
first (it may raise) and the default is appended. -/
def boolTypeField (flag dflt : String) (v : PyVal) : Except PyErr (List PyVal) :=
  match v with
  | .vbool b => .ok [.vstr flag, .vstr (toString (if b then (1 : Int) else 0))]
  | _ =>
    match pyIntE v with
    | .error e => .error e
    | .ok _ => .ok [.vstr flag, .vstr dflt]

/-- A bool field checked with v in [False, True] (hevc nvenc style); both
arms compute str(int(v)). -/
def boolInField (flag dflt : String) (v : PyVal) : Except PyErr (List PyVal) :=
  if pyEq v (.vbool false) || pyEq v (.vbool true) then
    match pyIntE v with
    | .error e => .error e
    | .ok n => .ok [.vstr flag, .vstr (toString n)]
  else
    match pyIntE v with
    | .error e => .error e
    | .ok _ => .ok [.vstr flag, .vstr dflt]

/-- A numeric field with inclusive bounds (the cq / qmin / qmax and h264
aq-strength pattern); both arms only stringify, never raise.  Note the
valid qmin / qmax arms emit the misspelled -qc flag of the source. -/
def rangeNumField (okFlag : String) (lo hi : Int) (dfltFlag dflt : String)
    (v : PyVal) : List PyVal :=
  if pyLE (.vint lo) v && pyLE v (.vint hi) then [.vstr okFlag, .vstr (pyStr v)]
  else [.vstr dfltFlag, .vstr dflt]

/-- A numeric field with strict bounds (hevc aq-strength, lines 921-926). -/
def rangeStrictField (flag : String) (lo hi : Int) (dflt : String)
    (v : PyVal) : List PyVal :=
  if pyLT (.vint lo) v && pyLT v (.vint hi) then [.vstr flag, .vstr (pyStr v)]
  else [.vstr flag, .vstr dflt]

/-- The hevc rc-lookahead field (lines 844-849): strict bounds; the invalid
arm concatenates the value with the message, raising TypeError for the
int the value always is. -/
def hevcLookaheadField (v : PyVal) : Except PyErr (List PyVal) :=
  if pyLT (.vint 0) v && pyLT v (.vint 33) then
    .ok [.vstr "-rc-lookahead", .vstr (pyStr v)]
  else
    match v with
    | .vstr _ => .ok [.vstr "-rc-lookahead", .vstr "-1"]
    | _ => .error .typeError

/-- The key the hevc surfaces error arm accidentally looks up (line 854
concatenates the message inside the subscript). -/
def hevcSurfacesBadKey : String :=
  "surfaces is not a valid surfaces for hevc_nvenc encoder ..."

/-- The hevc surfaces field (lines 850-855): the invalid arm subscripts
safe with the mangled key, raising KeyError. -/
def hevcSurfacesField (safe : Sdict) (v : PyVal) : Except PyErr (List PyVal) :=
  if pyLE (.vint 0) v then .ok [.vstr "-surfaces", .vstr (pyStr v)]
  else
    match dGet? safe hevcSurfacesBadKey with
    | some _ => .ok [.vstr "-surfaces", .vstr "32"]
    | Option.none => .error .keyError

/-- The hevc gpu field (lines 868-873): type(v) == int (bools excluded). -/
def hevcGpuField (v : PyVal) : Except PyErr (List PyVal) :=
  match v with
  | .vint n => .ok [.vstr "-gpu", .vstr (toString n)]
  | _ => .ok [.vstr "-gpu", .vstr "any"]

/-- Process a field only when its key is present (the if key in safe
guards). -/
def fieldOpt (safe : Sdict) (key : String)
    (f : PyVal → Except PyErr (List PyVal)) : Except PyErr (List PyVal) :=
  match dGet? safe key with
  | some v => f v
  | Option.none => .ok []

/-- Sequence the per-field fragments left to right, propagating the first
exception, concatenating the emitted fragments. -/
def seqFields : List (Except PyErr (List PyVal)) → Except PyErr (List PyVal)
  | [] => .ok []
  | x :: rest =>
    match x with
    | .error e => .error e
    | .ok l =>
      match seqFields rest with
      | .error e => .error e
      | .ok ls => .ok (l ++ ls)

/-- Preset and rate-control vocabularies shared by both nvenc variants. -/
def nvencPresets : List String :=
  ["default", "slow", "medium", "fast", "hp", "hq", "bd", "ll", "llhq",
   "llhp", "lossless", "losslesshp"]

/-- Valid rc values of both nvenc variants. -/
def nvencRcs : List String :=
  ["constqp", "vbr", "cbr", "vbr_minqp", "ll_2pass_quality", "ll_2pass_size",
   "vbr_2pass"]

/-- Valid level values of the h264 nvenc variant. -/
def h264NvencLevels : List String :=
  ["auto", "1", "1.0", "1b", "1.0b", "1.1", "1.2", "1.3", "2", "2.0", "2.1",
   "2.2", "3", "3.0", "3.1", "3.2", "4", "4.0", "4.1", "4.2", "5", "5.0",
   "5.1"]

/-- Valid level values of the hevc nvenc variant. -/
def hevcNvencLevels : List String :=
  ["auto", "1", "1.0", "2", "2.0", "2.1", "3", "3.0", "3.1", "4", "4.0",
   "4.1", "5", "5.0", "5.1", "5.2", "6", "6.0", "6.1", "6.2"]

/-- H264NvencCodec._codec_specific_produce_ffmpeg_list (lines 644-777). -/
def h264NvencHook (safe : Sdict) : Except PyErr (List PyVal) :=
  seqFields
    [fieldOpt safe "preset" (enumStrField "-preset" nvencPresets "medium"),
     fieldOpt safe "profile"
       (enumStrField "-profile" ["baseline", "main", "high", "high444p"] "main"),
     fieldOpt safe "level" (enumStrField "-level" h264NvencLevels "auto"),
     fieldOpt safe "rc" (enumStrField "-rc" nvencRcs "-1"),
     fieldOpt safe "rc-lookahead" (intGeField "-rc-lookahead" (-1) (some "-1")),
     fieldOpt safe "surfaces" (intGeField "-surfaces" 0 (some "32")),
     fieldOpt safe "cbr" (boolTypeField "-cbr" "0"),
     fieldOpt safe "2pass" (boolTypeField "-2pass" "auto"),
     fieldOpt safe "gpu" (intGeField "-gpu" (-2) (some "any")),
     fieldOpt safe "delay" (intGeField "-delay" 0 Option.none),
     fieldOpt safe "no-scenecut" (boolTypeField "-no-scenecut" "0"),
     fieldOpt safe "forced-idr" (boolTypeField "-forced-idr" "auto"),
     fieldOpt safe "b_adapt" (boolTypeField "-b_adapt" "1"),
     fieldOpt safe "spatial-aq" (boolTypeField "-spatial-aq" "0"),
     fieldOpt safe "temporal-aq" (boolTypeField "-temporal-aq" "0"),
     fieldOpt safe "zerolatency" (boolTypeField "-zerolatency" "0"),
     fieldOpt safe "nonref_p" (boolTypeField "-nonref_p" "0"),
     fieldOpt safe "strict_gop" (boolTypeField "-strict_gop" "0"),
     fieldOpt safe "aq-strength"
       (fun v => .ok (rangeNumField "-aq-strength" 1 15 "-aq-strength" "8" v)),
     fieldOpt safe "cq" (fun v => .ok (rangeNumField "-cq" 0 51 "-cq" "0" v)),
     fieldOpt safe "qmin" (fun v => .ok (rangeNumField "-qc" 0 51 "-qmin" "0" v)),
     fieldOpt safe "qmax" (fun v => .ok (rangeNumField "-qc" 0 51 "-qmax" "51" v))]

/-- HEVCNvencCodec._codec_specific_produce_ffmpeg_list (lines 811-945). -/
def hevcNvencHook (safe : Sdict) : Except PyErr (List PyVal) :=
  seqFields
    [fieldOpt safe "preset" (enumStrField "-preset" nvencPresets "medium"),
     fieldOpt safe "profile"
       (enumStrField "-profile" ["main", "main10", "rext"] "main"),
     fieldOpt safe "level" (enumStrField "-level" hevcNvencLevels "auto"),
     fieldOpt safe "tier" tierField,
     fieldOpt safe "rc" (enumStrField "-rc" nvencRcs "-1"),
     fieldOpt safe "rc-lookahead" hevcLookaheadField,
     fieldOpt safe "surfaces" (hevcSurfacesField safe),
     fieldOpt safe "cbr" (boolInField "-cbr" "0"),
     fieldOpt safe "2pass" (boolInField "-2pass" "auto"),
     fieldOpt safe "gpu" hevcGpuField,
     fieldOpt safe "delay" (intGeField "-delay" 0 Option.none),
     fieldOpt safe "no-scenecut" (boolInField "-no-scenecut" "0"),
     fieldOpt safe "forced-idr" (boolInField "-forced-idr" "auto"),
     fieldOpt safe "spatial_aq" (boolInField "-spatial_aq" "0"),
     fieldOpt safe "temporal_aq" (boolInField "-temporal_aq" "0"),
     fieldOpt safe "zerolatency" (boolInField "-zerolatency" "0"),
     fieldOpt safe "nonref_p" (boolInField "-nonref_p" "0"),
     fieldOpt safe "strict_gop" (boolInField "-strict_gop" "0"),
     fieldOpt safe "aq-strength"
       (fun v => .ok (rangeStrictField "-aq-strength" 0 16 "8" v)),
     fieldOpt safe "cq" (fun v => .ok (rangeNumField "-cq" 0 51 "-cq" "0" v)),
     fieldOpt safe "qmin" (fun v => .ok (rangeNumField "-qc" 0 51 "-qmin" "0" v)),
     fieldOpt safe "qmax" (fun v => .ok (rangeNumField "-qc" 0 51 "-qmax" "51" v))]

/-! Per-family parse_options. -/

/-- The BaseCodec.parse_options guard (lines 15-17): the raw codec entry
must exist and equal the declared codec_name. -/
def codecMatches (name : String) (opt : Sdict) : Bool :=
  match dGet? opt "codec" with
  | some v => pyEq v (.vstr name)
  | Option.none => false

/-- Fixed-point one-decimal formatting of the dead volume branch (line
106); volume is declared by no audio codec, so safe never holds it and
this is unreachable from the pipeline. -/
def fmtFix1 (v : PyVal) : String :=
  match pyToQ? v with
  | some q =>
    let a := q.num * 10
    let b := q.den
    let r := Int.fdiv (2 * (a.natAbs : Int) + b) (2 * b)
    let r := if a < 0 then -r else r
    let sgn := if r < 0 then "-" else ""
    sgn ++ toString (r.natAbs / 10) ++ "." ++ toString (r.natAbs % 10)
  | Option.none => pyStr v

/-- An audio codec variant: identity, encoder name, declared options and
the produce-ffmpeg-list hook (every audio hook is a pure list). -/
structure ACfg where
  name : String
  ff : String
  enc : Schema
  hook : Sdict → List PyVal

/-- AudioCodec.parse_options body after the codec check (lines 79-111). -/
def audioBody (c : ACfg) (opt : Sdict) : List PyVal :=
  let safe := audioRangeCheck (safeOptions c.enc opt)
  let ol := [.vstr "-acodec", .vstr c.ff]
  let ol := match dGet? safe "channels" with
    | some v => ol ++ [.vstr "-ac", .vstr (pyStr v)]
    | Option.none => ol
  let ol := match dGet? safe "bitrate" with
    | some v => ol ++ [.vstr "-ab", .vstr (pyStr v ++ "k")]
    | Option.none => ol
  let ol := match dGet? safe "samplerate" with
    | some v => ol ++ [.vstr "-ar", .vstr (pyStr v)]
    | Option.none => ol
  let ol := match dGet? safe "volume" with
    | some v => ol ++ [.vstr "-af", .vstr ("volume=" ++ fmtFix1 v ++ "dB")]
    | Option.none => ol
  let ol := match dGet? safe "filters" with
    | some v => extendFilter "-af" ol v
    | Option.none => ol
  ol ++ c.hook safe

/-- AudioCodec.parse_options (lines 76-111). -/
def audioParse (c : ACfg) (opt : Sdict) : Except PyErr (List PyVal) :=
  if codecMatches c.name opt then .ok (audioBody c opt)
  else .error .invalidCodec

/-- A subtitle codec variant (no subtitle variant declares extra options or
hooks beyond the shared base). -/
structure SCfg where
  name : String
  ff : String
  enc : Schema

/-- SubtitleCodec.parse_options (lines 133-157). -/
def subParse (c : SCfg) (opt : Sdict) : Except PyErr (List PyVal) :=
  if codecMatches c.name opt then
    match subRangeCheck (safeOptions c.enc opt) with
    | .error e => .error e
    | .ok _ => .ok [.vstr "-scodec", .vstr c.ff]
  else .error .invalidCodec

/-- A video codec variant: identity, encoder name, declared options, the
parse-options pre-hook and the produce-ffmpeg-list post-hook. -/
structure VCfg where
  name : String
  ff : String
  enc : Schema
  pre : Sdict → Except PyErr Sdict
  post : Sdict → Except PyErr (List PyVal)

/-- The identity pre-hook of BaseCodec. -/
def idPre (s : Sdict) : Except PyErr Sdict := .ok s

/-- Wrap a pure post-hook. -/
def purePost (f : Sdict → List PyVal) (s : Sdict) : Except PyErr (List PyVal) :=
  .ok (f s)

/-- Exception propagation: run the continuation on a normal value, let a
raised exception fly past it (the implicit control flow of the source). -/
def onOk {α β : Type} (x : Except PyErr α) (f : α → Except PyErr β) :
    Except PyErr β :=
  match x with
  | .error e => .error e
  | .ok a => f a

/-- The tail of the video emission: the filters-truthy TypeError of line
436 aborts, otherwise the post hook fragments are appended.  (The list
argument folds in the pure filter extends of lines 438-443; in the
source they run textually after the line-436 raise, but as pure list
operations this is unobservable.) -/
def videoTail (bad : Bool) (post : Except PyErr (List PyVal))
    (ol : List PyVal) : Except PyErr (List PyVal) :=
  if bad then .error .typeError
  else onOk post fun extra => .ok (ol ++ extra)

/-- The fps emission of lines 421-422: the token is str(round(fps, 2)).
round() of a non-number would raise TypeError; fps is always a coerced
float. -/
def fpsFragment (safe : Sdict) : Except PyErr (List PyVal) :=
  match dGet? safe "fps" with
  | some v =>
    match pyToQ? v with
    | some q => .ok [.vstr "-r", .vstr (pyFloatStr (pyRound2 q))]
    | Option.none => .error .typeError
  | Option.none => .ok []

/-- The dict updates of parse_options lines 394-407: write the resolved
dimensions and aspect filters back into safe, swap on autorotate, record
the aspect string.  Returns the updated dict and the final (w, h). -/
def videoGeomDict (safe1 : Sdict) (filt : Option String) (w2 h2 : Int) :
    Sdict × Int × Int :=
  let safe2 := dSet (dSet (dSet safe1 "max_width" (.vint w2))
    "max_height" (.vint h2)) "aspect_filters" (optStrToVal filt)
  let rot := pyTruthy (dGetD safe2 "autorotate" .vnone)
    && (match dGet? safe2 "src_rotate" with
        | some v => pyEq v (.vint 90) || pyEq v (.vint 270)
        | Option.none => false)
  let w3 := if rot then h2 else w2
  let h3 := if rot then w2 else h2
  let safe3 := if rot then
      dSet (dSet safe2 "max_width" (.vint h2)) "max_height" (.vint w2)
    else safe2
  let safe4 := if w3 ≠ 0 ∧ h3 ≠ 0 then
      dSet safe3 "aspect" (.vstr (toString w3 ++ ":" ++ toString h3))
    else safe3
  (safe4, w3, h3)

/-- The argument emission of parse_options lines 417-443 (minus the raise
on line 436, which videoTail performs): codec and pixel format, the fps
fragment, bitrate and bufsize tokens, size and aspect, then the crop,
autorotate and filters extends. -/
def videoEmitList (ff : String) (safe : Sdict) (w3 h3 : Int)
    (fpsFrag : List PyVal) : List PyVal :=
  let pixFmt := dGetD safe "pix_fmt" (.vstr "yuv420p")
  let ol : List PyVal :=
    [.vstr "-vcodec", .vstr ff, .vstr "-pix_fmt", pixFmt] ++ fpsFrag
  let ol := match dGet? safe "bitrate" with
    | some v => ol ++ [.vstr "-vb", .vstr (pyStr v ++ "M")]
    | Option.none => ol
  let ol := match dGet? safe "bufsize" with
    | some v => ol ++ [.vstr "-bufsize", .vstr (pyStr v ++ "k")]
    | Option.none => ol
  let ol := if w3 ≠ 0 ∧ h3 ≠ 0 then
      let ol2 := ol ++
        [.vstr "-s", .vstr (toString w3 ++ "x" ++ toString h3)]
      if dHas safe "aspect" then
        ol2 ++ [.vstr "-aspect", .vstr (toString w3 ++ ":" ++ toString h3)]
      else ol2
    else ol
  let ol := match dGet? safe "crop" with
    | some v =>
      if pyTruthy v then extendFilter "-vf" ol (.vstr ("crop=" ++ pyStr v))
      else ol
    | Option.none => ol
  let ol := if pyTruthy (dGetD safe "autorotate" (.vbool false))
      && dHas safe "src_rotate" then
      extendFilter "-vf" ol (autorotateVal (dGetD safe "src_rotate" .vnone))
    else ol
  let ol := match dGet? safe "filters" with
    | some v => extendFilter "-vf" ol v
    | Option.none => ol
  ol

/-- VideoCodec.parse_options body after the codec check (lines 331-446).
The two divBy2E calls raise TypeError whenever _aspect_corrections hands
back a None dimension (missing or out-of-range inputs), and the bare
self-extend-vf call on line 436 raises TypeError (missing positional
argument) whenever the geometry stage produced a filter fragment. -/
def videoBody (c : VCfg) (opt : Sdict) : Except PyErr (List PyVal) :=
  let safe0 := videoRangeCheck (safeOptions c.enc opt)
  let w0 := maxDimOf safe0 "max_width" 4000
  let h0 := maxDimOf safe0 "max_height" 3000
  let ct := cropStage safe0
  let safe1 := ct.1
  let cw := ct.2.1
  let ch := ct.2.2
  let useCrop := truthyOI cw && truthyOI ch
  let sw := if useCrop then cw else dGetInt? safe1 "src_width"
  let sh := if useCrop then ch else dGetInt? safe1 "src_height"
  onOk (aspectCorrections sw sh w0 h0 (policyOf safe1)) fun whf =>
  onOk (divBy2E whf.1) fun w2 =>
  onOk (divBy2E whf.2.1) fun h2 =>
  let gd := videoGeomDict safe1 whf.2.2 w2 h2
  onOk (c.pre gd.1) fun safe =>
  onOk (fpsFragment safe) fun fpsFrag =>
  videoTail (pyTruthy (dGetD safe "aspect_filters" .vnone)) (c.post safe)
    (videoEmitList c.ff safe gd.2.1 gd.2.2 fpsFrag)

/-- VideoCodec.parse_options (lines 328-446). -/
def videoParse (c : VCfg) (opt : Sdict) : Except PyErr (List PyVal) :=
  if codecMatches c.name opt then videoBody c opt
  else .error .invalidCodec

/-! Declared option schemas (the encoder_options dicts). -/

/-- AudioCodec.encoder_options (lines 55-61). -/
def audioBaseEnc : Schema :=
  [("codec", .tstr), ("channels", .tint), ("bitrate", .tint),
   ("samplerate", .tint), ("filters", .tstr)]

/-- SubtitleCodec.encoder_options (lines 126-131). -/
def subBaseEnc : Schema :=
  [("codec", .tstr), ("language", .tstr), ("forced", .tint),
   ("default", .tint)]

/-- VideoCodec.encoder_options (lines 189-204). -/
def videoBaseEnc : Schema :=
  [("codec", .tstr), ("bitrate", .tfloat), ("fps", .tfloat),
   ("pix_fmt", .tstr), ("max_width", .tint), ("max_height", .tint),
   ("sizing_policy", .tstr), ("src_width", .tint), ("src_height", .tint),
   ("src_rotate", .tint), ("crop", .tstr), ("filters", .tstr),
   ("autorotate", .tbool), ("bufsize", .tint)]

/-- VorbisCodec extras (lines 519-523). -/
def vorbisEnc : Schema := audioBaseEnc ++ [("quality", .tint)]

/-- TheoraCodec extras (lines 600-604). -/
def theoraEnc : Schema := videoBaseEnc ++ [("quality", .tint)]

/-- H264Codec extras (lines 954-973). -/
def h264Enc : Schema :=
  videoBaseEnc ++
  [("preset", .tstr), ("quality", .tint), ("profile", .tstr),
   ("tune", .tstr), ("level", .tstr), ("max_reference_frames", .tint),
   ("max_rate", .tstr), ("max_frames_between_keyframes", .tint),
   ("qmin", .tint), ("qcomp", .tfloat), ("keyint_min", .tint),
   ("subq", .tint), ("b-pyramid", .tint), ("trellis", .tint)]

/-- Ffv1Codec extras (lines 1047-1064). -/
def ffv1Enc : Schema :=
  videoBaseEnc ++
  [("level", .tint), ("coder", .tint), ("context", .tint), ("g", .tint),
   ("slices", .tint), ("slicecrc", .tint)]

/-- H264NvencCodec extras (lines 618-642); note aq-strength is declared
bool there. -/
def h264NvencEnc : Schema :=
  videoBaseEnc ++
  [("preset", .tstr), ("profile", .tstr), ("level", .tstr), ("rc", .tstr),
   ("rc-lookahead", .tint), ("surfaces", .tint), ("cbr", .tbool),
   ("2pass", .tbool), ("gpu", .tint), ("delay", .tint),
   ("no-scenecut", .tbool), ("forced-idr", .tbool), ("b_adapt", .tbool),
   ("spatial-aq", .tbool), ("temporal-aq", .tbool), ("zerolatency", .tbool),
   ("nonref_p", .tbool), ("strict_gop", .tbool), ("aq-strength", .tbool),
   ("cq", .tfloat), ("qmin", .tfloat), ("qmax", .tfloat)]

/-- HEVCNvencCodec extras (lines 785-809). -/
def hevcNvencEnc : Schema :=
  videoBaseEnc ++
  [("preset", .tstr), ("profile", .tstr), ("level", .tstr), ("tier", .tstr),
   ("rc", .tstr), ("rc-lookahead", .tint), ("surfaces", .tint),
   ("cbr", .tbool), ("2pass", .tbool), ("gpu", .tint), ("delay", .tint),
   ("no-scenecut", .tbool), ("forced-idr", .tbool), ("spatial_aq", .tbool),
   ("temporal_aq", .tbool), ("zerolatency", .tbool), ("nonref_p", .tbool),
   ("strict_gop", .tbool), ("aq-strength", .tint), ("cq", .tfloat),
   ("qmin", .tfloat), ("qmax", .tfloat)]

/-! The codec registry: one constructor per class in the three codec
lists at the bottom of the module. -/

/-- Every codec variant registered in audio_codec_list, video_codec_list
and subtitle_codec_list (lines 1166-1180). -/
inductive Codec where
  | audioNull | audioCopy | vorbis | aac | mp3 | mp2 | fdkAac | ac3 | dts
  | flac
  | videoNull | videoCopy | theora | h264 | divx | vp8 | h263 | flv | ffv1
  | mpeg1 | mpeg2 | hevcNvenc | h264Nvenc
  | subNull | subCopy | movText | ssa | subrip | dvdsub | dvbsub
deriving DecidableEq, Repr

/-- A plain audio codec config sharing the base schema and empty hook. -/
def plainACfg (name ff : String) : ACfg :=
  ⟨name, ff, audioBaseEnc, fun _ => []⟩

/-- A plain video codec config sharing the base schema and trivial hooks. -/
def plainVCfg (name ff : String) : VCfg :=
  ⟨name, ff, videoBaseEnc, idPre, purePost (fun _ => [])⟩

/-- The config of each audio variant. -/
def aCfg : Codec → ACfg
  | .vorbis => ⟨"vorbis", "libvorbis", vorbisEnc, vorbisHook⟩
  | .aac => ⟨"aac", "aac", audioBaseEnc, aacHook⟩
  | .mp3 => plainACfg "mp3" "libmp3lame"
  | .mp2 => plainACfg "mp2" "mp2"
  | .fdkAac => plainACfg "libfdk_aac" "libfdk_aac"
  | .ac3 => plainACfg "ac3" "ac3"
  | .dts => plainACfg "dts" "dts"
  | .flac => plainACfg "flac" "flac"
  | _ => plainACfg "" ""

/-- The config of each video variant. -/
def vCfg : Codec → VCfg
  | .theora => ⟨"theora", "libtheora", theoraEnc, idPre, purePost theoraHook⟩
  | .h264 => ⟨"h264", "libx264", h264Enc, idPre, purePost h264Hook⟩
  | .divx => plainVCfg "divx" "mpeg4"
  | .vp8 => plainVCfg "vp8" "libvpx"
  | .h263 => plainVCfg "h263" "h263"
  | .flv => plainVCfg "flv" "flv"
  | .ffv1 => ⟨"ffv1", "ffv1", ffv1Enc, idPre, purePost ffv1Hook⟩
  | .mpeg1 => ⟨"mpeg1", "mpeg1video", videoBaseEnc, mpegPre,
      purePost (fun _ => [])⟩
  | .mpeg2 => ⟨"mpeg2", "mpeg2video", videoBaseEnc, mpegPre,
      purePost (fun _ => [])⟩
  | .hevcNvenc => ⟨"nvenc_hevc", "nvenc_hevc", hevcNvencEnc, idPre,
      hevcNvencHook⟩
  | .h264Nvenc => ⟨"nvenc_h264", "nvenc_h264", h264NvencEnc, idPre,
      h264NvencHook⟩
  | _ => plainVCfg "" ""

/-- The config of each subtitle variant. -/
def sCfg : Codec → SCfg
  | .movText => ⟨"mov_text", "mov_text", subBaseEnc⟩
  | .ssa => ⟨"ass", "ass", subBaseEnc⟩
  | .subrip => ⟨"subrip", "subrip", subBaseEnc⟩
  | .dvdsub => ⟨"dvdsub", "dvdsub", subBaseEnc⟩
  | .dvbsub => ⟨"dvbsub", "dvbsub", subBaseEnc⟩
  | _ => ⟨"", "", subBaseEnc⟩

/-- parse_options of every registered codec: the null and copy variants
short-circuit (lines 449-508); everything else runs its family pipeline. -/
def parseOptions : Codec → Sdict → Except PyErr (List PyVal)
  | .audioNull, _ => .ok [.vstr "-an"]
  | .videoNull, _ => .ok [.vstr "-vn"]
  | .subNull, _ => .ok [.vstr "-sn"]
  | .audioCopy, _ => .ok [.vstr "-acodec", .vstr "copy"]
  | .videoCopy, _ => .ok [.vstr "-vcodec", .vstr "copy"]
  | .subCopy, _ => .ok [.vstr "-scodec", .vstr "copy"]
  | .vorbis, opt => audioParse (aCfg .vorbis) opt
  | .aac, opt => audioParse (aCfg .aac) opt
  | .mp3, opt => audioParse (aCfg .mp3) opt
  | .mp2, opt => audioParse (aCfg .mp2) opt
  | .fdkAac, opt => audioParse (aCfg .fdkAac) opt
  | .ac3, opt => audioParse (aCfg .ac3) opt
  | .dts, opt => audioParse (aCfg .dts) opt
  | .flac, opt => audioParse (aCfg .flac) opt
  | .theora, opt => videoParse (vCfg .theora) opt
  | .h264, opt => videoParse (vCfg .h264) opt
  | .divx, opt => videoParse (vCfg .divx) opt
  | .vp8, opt => videoParse (vCfg .vp8) opt
  | .h263, opt => videoParse (vCfg .h263) opt
  | .flv, opt => videoParse (vCfg .flv) opt
  | .ffv1, opt => videoParse (vCfg .ffv1) opt
  | .mpeg1, opt => videoParse (vCfg .mpeg1) opt
  | .mpeg2, opt => videoParse (vCfg .mpeg2) opt
  | .hevcNvenc, opt => videoParse (vCfg .hevcNvenc) opt
  | .h264Nvenc, opt => videoParse (vCfg .h264Nvenc) opt
  | .movText, opt => subParse (sCfg .movText) opt
  | .ssa, opt => subParse (sCfg .ssa) opt
  | .subrip, opt => subParse (sCfg .subrip) opt
  | .dvdsub, opt => subParse (sCfg .dvdsub) opt
  | .dvbsub, opt => subParse (sCfg .dvbsub) opt

/-- The declared codec_name each non-null, non-copy variant checks raw
requests against. -/
def codecIdName : Codec → String
  | .vorbis => "vorbis"
  | .aac => "aac"
  | .mp3 => "mp3"
  | .mp2 => "mp2"
  | .fdkAac => "libfdk_aac"
  | .ac3 => "ac3"
  | .dts => "dts"
  | .flac => "flac"
  | .theora => "theora"
  | .h264 => "h264"
  | .divx => "divx"
  | .vp8 => "vp8"
  | .h263 => "h263"
  | .flv => "flv"
  | .ffv1 => "ffv1"
  | .mpeg1 => "mpeg1"
  | .mpeg2 => "mpeg2"
  | .hevcNvenc => "nvenc_hevc"
  | .h264Nvenc => "nvenc_h264"
  | .movText => "mov_text"
  | .ssa => "ass"
  | .subrip => "subrip"
  | .dvdsub => "dvdsub"
  | .dvbsub => "dvbsub"
  | _ => ""

/-- The declared encoder_options schema of each non-null, non-copy
variant. -/
def codecEnc : Codec → Schema
  | .vorbis => vorbisEnc
  | .theora => theoraEnc
  | .h264 => h264Enc
  | .ffv1 => ffv1Enc
  | .hevcNvenc => hevcNvencEnc
  | .h264Nvenc => h264NvencEnc
  | .movText | .ssa | .subrip | .dvdsub | .dvbsub => subBaseEnc
  | .aac | .mp3 | .mp2 | .fdkAac | .ac3 | .dts | .flac => audioBaseEnc
  | _ => videoBaseEnc

/-- The registered codecs that are neither null nor copy pseudo-codecs:
these run BaseCodec.parse_options and its InvalidCodec check. -/
def realCodecs : List Codec :=
  [.vorbis, .aac, .mp3, .mp2, .fdkAac, .ac3, .dts, .flac,
   .theora, .h264, .divx, .vp8, .h263, .flv, .ffv1, .mpeg1, .mpeg2,
   .hevcNvenc, .h264Nvenc,
   .movText, .ssa, .subrip, .dvdsub, .dvbsub]

/-- The registered video codec variants running the video pipeline. -/
def videoRealCodecs : List Codec :=
  [.theora, .h264, .divx, .vp8, .h263, .flv, .ffv1, .mpeg1, .mpeg2,
   .hevcNvenc, .h264Nvenc]

/-- The registered audio codec variants running the audio pipeline. -/
def audioRealCodecs : List Codec :=
  [.vorbis, .aac, .mp3, .mp2, .fdkAac, .ac3, .dts, .flac]

/-- A flag/value token pair sitting at position i, i+1 of an option list,
whose flag element does not compare equal to the given filter flag: the
filter accumulator can then never rewrite the value element, because it
only ever rewrites the successor of the first element equal to the
filter flag, and any rewritten element gains a comma the flag names
lack. -/
def safePair (flag : String) (l : List PyVal) (i : Nat) (tok : PyVal) :
    Prop :=
  (∃ y, l.get? i = some y ∧ pyEq y (.vstr flag) = false)
  ∧ l.get? (i + 1) = some tok

/-! Supporting lemmas. -/

theorem dGet?_dSet : ∀ (d : Sdict) (k : String) (v : PyVal) (k2 : String),
    dGet? (dSet d k v) k2 = if k = k2 then some v else dGet? d k2
  | [], _, _, _ => by simp [dSet, dGet?]
  | (k1, w) :: tl, k, v, k2 => by
    by_cases h1 : k1 = k
    · subst h1
      have e : dSet ((k1, w) :: tl) k1 v = (k1, v) :: tl := by simp [dSet]
      rw [e]
      by_cases h2 : k1 = k2
      · subst h2; simp [dGet?]
      · simp [dGet?, h2]
    · have e : dSet ((k1, w) :: tl) k v = (k1, w) :: dSet tl k v := by
        simp [dSet, h1]
      rw [e]
      by_cases h2 : k1 = k2
      · subst h2
        have hk : ¬ k = k1 := fun hh => h1 hh.symm
        simp [dGet?, hk]
      · simp [dGet?, h2, dGet?_dSet tl k v k2]

theorem dGet?_dDel : ∀ (d : Sdict) (k k2 : String),
    dGet? (dDel d k) k2 = if k = k2 then Option.none else dGet? d k2
  | [], _, _ => by simp [dDel, dGet?]
  | (k1, w) :: tl, k, k2 => by
    by_cases h1 : k1 = k
    · subst h1
      have e : dDel ((k1, w) :: tl) k1 = dDel tl k1 := by simp [dDel]
      rw [e, dGet?_dDel tl k1 k2]
      by_cases h2 : k1 = k2
      · subst h2; simp
      · simp [dGet?, h2]
    · have e : dDel ((k1, w) :: tl) k = (k1, w) :: dDel tl k := by
        simp [dDel, h1]
      rw [e]
      by_cases h2 : k1 = k2
      · subst h2
        have hk : ¬ k = k1 := fun hh => h1 hh.symm
        simp [dGet?, hk]
      · simp [dGet?, h2, dGet?_dDel tl k k2]

theorem coerce_hasType (t : PyType) (v w : PyVal) (h : coerce t v = some w) :
    hasPyType w t := by
  cases t <;> cases v <;>
    simp only [coerce, pyIntE, Option.map] at h <;>
    (try split at h) <;>
    (try cases h) <;>
    simp_all [hasPyType]

theorem safeStep_typed (schema : Schema) (acc : Sdict) (kv : String × PyVal)
    (inv : ∀ k v, dGet? acc k = some v →
      ∃ t, sLookup schema k = some t ∧ hasPyType v t) :
    ∀ k v, dGet? (safeStep schema acc kv) k = some v →
      ∃ t, sLookup schema k = some t ∧ hasPyType v t := by
  intro k v h
  unfold safeStep at h
  split at h
  case h_2 => exact inv k v h
  case h_1 t hl =>
    split at h
    case h_2 => exact inv k v h
    case h_1 w2 hc =>
      rw [dGet?_dSet] at h
      split at h
      case isTrue heq =>
        cases h
        exact ⟨t, heq ▸ hl, coerce_hasType _ _ _ hc⟩
      case isFalse => exact inv k v h

theorem safeFold_typed (schema : Schema) (opts : Sdict) :
    ∀ (acc : Sdict),
      (∀ k v, dGet? acc k = some v →
        ∃ t, sLookup schema k = some t ∧ hasPyType v t) →
      ∀ k v, dGet? (opts.foldl (safeStep schema) acc) k = some v →
        ∃ t, sLookup schema k = some t ∧ hasPyType v t := by
  induction opts with
  | nil => intro acc inv k v h; exact inv k v h
  | cons p rest ih =>
    intro acc inv k v h
    exact ih (safeStep schema acc p) (safeStep_typed schema acc p inv) k v h

theorem stepDel_get_ne (k : String) (bad : PyVal → Bool) (d : Sdict)
    (k2 : String) (h : ¬ k = k2) :
    dGet? (stepDel k bad d) k2 = dGet? d k2 := by
  cases hg : dGet? d k with
  | none => simp [stepDel, hg]
  | some v =>
    simp only [stepDel, hg]
    by_cases hb : bad v
    · simp [hb, dGet?_dDel, h]
    · simp [hb]

theorem stepDel_self_eq (k : String) (bad : PyVal → Bool) (d : Sdict)
    (h : ∀ v, dGet? d k = some v → bad v = false) :
    stepDel k bad d = d := by
  cases hg : dGet? d k with
  | none => simp [stepDel, hg]
  | some v => simp [stepDel, hg, h v hg]

theorem stepDel_stable (k : String) (bad : PyVal → Bool) (d : Sdict) :
    ∀ v, dGet? (stepDel k bad d) k = some v → bad v = false := by
  intro v hv
  cases hg : dGet? d k with
  | none =>
    simp only [stepDel, hg] at hv
    simp [hg] at hv
  | some w =>
    simp only [stepDel, hg] at hv
    by_cases hb : bad w
    · rw [if_pos hb, dGet?_dDel, if_pos rfl] at hv
      simp at hv
    · rw [if_neg hb, hg, Option.some.injEq] at hv
      subst hv
      simpa using hb

theorem threeStep_idem (k1 k2 k3 : String) (b1 b2 b3 : PyVal → Bool)
    (h12 : ¬ k1 = k2) (h13 : ¬ k1 = k3) (h23 : ¬ k2 = k3) (s : Sdict) :
    stepDel k3 b3 (stepDel k2 b2 (stepDel k1 b1
      (stepDel k3 b3 (stepDel k2 b2 (stepDel k1 b1 s)))))
    = stepDel k3 b3 (stepDel k2 b2 (stepDel k1 b1 s)) := by
  set r := stepDel k3 b3 (stepDel k2 b2 (stepDel k1 b1 s)) with hr
  have st1 : ∀ v, dGet? r k1 = some v → b1 v = false := by
    intro v hv
    rw [hr, stepDel_get_ne k3 b3 _ k1 (fun hh => h13 hh.symm),
      stepDel_get_ne k2 b2 _ k1 (fun hh => h12 hh.symm)] at hv
    exact stepDel_stable k1 b1 _ v hv
  have st2 : ∀ v, dGet? r k2 = some v → b2 v = false := by
    intro v hv
    rw [hr, stepDel_get_ne k3 b3 _ k2 (fun hh => h23 hh.symm)] at hv
    exact stepDel_stable k2 b2 _ v hv
  have st3 : ∀ v, dGet? r k3 = some v → b3 v = false := by
    intro v hv
    rw [hr] at hv
    exact stepDel_stable k3 b3 _ v hv
  rw [stepDel_self_eq k1 b1 r st1, stepDel_self_eq k2 b2 r st2,
    stepDel_self_eq k3 b3 r st3]

theorem audioRangeCheck_idem (s : Sdict) :
    audioRangeCheck (audioRangeCheck s) = audioRangeCheck s := by
  unfold audioRangeCheck
  exact threeStep_idem _ _ _ _ _ _ (by decide) (by decide) (by decide) s

theorem videoRangeCheck_idem (s : Sdict) :
    videoRangeCheck (videoRangeCheck s) = videoRangeCheck s := by
  unfold videoRangeCheck
  exact threeStep_idem _ _ _ _ _ _ (by decide) (by decide) (by decide) s

theorem subRangeCheck_idem (s s2 : Sdict) (h : subRangeCheck s = .ok s2) :
    subRangeCheck s2 = .ok s2 := by
  unfold subRangeCheck at h
  generalize hB : stepDel "default" (badOutside (.vint 0) (.vint 1))
    (stepDel "forced" (badOutside (.vint 0) (.vint 1)) s) = B at h
  have stF : ∀ v, dGet? B "forced" = some v →
      badOutside (.vint 0) (.vint 1) v = false := by
    intro v hv
    rw [← hB, stepDel_get_ne _ _ _ _ (by decide)] at hv
    exact stepDel_stable _ _ _ v hv
  have stD : ∀ v, dGet? B "default" = some v →
      badOutside (.vint 0) (.vint 1) v = false := by
    intro v hv
    rw [← hB] at hv
    exact stepDel_stable _ _ _ v hv
  unfold subLangCheck at h
  cases hg : dGet? B "language" with
  | none =>
    rw [hg] at h
    have h2 : B = s2 := by simpa using h
    subst h2
    unfold subRangeCheck
    rw [stepDel_self_eq _ _ _ stF, stepDel_self_eq _ _ _ stD]
    unfold subLangCheck
    rw [hg]
  | some lv =>
    rw [hg] at h
    cases lv with
    | vstr t =>
      by_cases hl : t.length > 3
      · have h2 : dDel B "language" = s2 := by simpa [hl] using h
        subst h2
        have stF2 : ∀ v, dGet? (dDel B "language") "forced" = some v →
            badOutside (.vint 0) (.vint 1) v = false := by
          intro v hv
          rw [dGet?_dDel, if_neg (by decide)] at hv
          exact stF v hv
        have stD2 : ∀ v, dGet? (dDel B "language") "default" = some v →
            badOutside (.vint 0) (.vint 1) v = false := by
          intro v hv
          rw [dGet?_dDel, if_neg (by decide)] at hv
          exact stD v hv
        unfold subRangeCheck
        rw [stepDel_self_eq _ _ _ stF2, stepDel_self_eq _ _ _ stD2]
        unfold subLangCheck
        rw [dGet?_dDel, if_pos rfl]
      · have h2 : B = s2 := by simpa [hl] using h
        subst h2
        unfold subRangeCheck
        rw [stepDel_self_eq _ _ _ stF, stepDel_self_eq _ _ _ stD]
        unfold subLangCheck
        rw [hg]
        simp [hl]
    | vint n => simp at h
    | vfloat q => simp at h
    | vbool b => simp at h
    | vnone => simp at h

theorem checkDimVal_stable (hi w w2 : Int) (hhi : hi % 2 = 0)
    (h : checkDimVal 16 hi w = some w2) : checkDimVal 16 hi w2 = some w2 := by
  unfold checkDimVal at h ⊢
  split at h
  · simp at h
  · rename_i hrange
    split at h
    · rename_i hodd
      rw [Option.some.injEq] at h
      subst h
      rw [if_neg (by omega), if_neg (by omega)]
    · rename_i heven
      rw [Option.some.injEq] at h
      subst h
      rw [if_neg hrange, if_neg heven]

/-! No stage after the codec-name check can produce the InvalidCodec
failure: it is raised by BaseCodec.parse_options alone. -/

theorem onOk_ne {α β : Type} (x : Except PyErr α) (f : α → Except PyErr β)
    (hx : x ≠ .error .invalidCodec) (hf : ∀ a, f a ≠ .error .invalidCodec) :
    onOk x f ≠ .error .invalidCodec := by
  cases x with
  | error e => simpa [onOk] using hx
  | ok a => simpa [onOk] using hf a

theorem pyIntE_ne_ic (v : PyVal) : pyIntE v ≠ .error .invalidCodec := by
  cases v <;> simp [pyIntE] <;> split <;> simp

theorem aspectCore_ne_ic (sw sh mw mh : Int) (policy : String) :
    aspectCore sw sh mw mh policy ≠ .error .invalidCodec := by
  unfold aspectCore
  repeat' split
  all_goals simp

theorem aspectCorrections_ne_ic (sw sh mw mh : Option Int) (policy : String) :
    aspectCorrections sw sh mw mh policy ≠ .error .invalidCodec := by
  unfold aspectCorrections
  split
  · simp
  · split
    · simp
    · cases sw <;> cases sh <;> cases mw <;> cases mh <;>
        first
          | exact aspectCore_ne_ic _ _ _ _ _
          | simp

theorem divBy2E_ne_ic (w : Option Int) : divBy2E w ≠ .error .invalidCodec := by
  cases w <;> simp [divBy2E]

theorem fpsFragment_ne_ic (safe : Sdict) :
    fpsFragment safe ≠ .error .invalidCodec := by
  unfold fpsFragment
  repeat' split <;> simp

theorem idPre_ne_ic (s : Sdict) : idPre s ≠ .error .invalidCodec := by
  simp [idPre]

theorem purePost_ne_ic (f : Sdict → List PyVal) (s : Sdict) :
    purePost f s ≠ .error .invalidCodec := by
  simp [purePost]

theorem mpegPre_ne_ic (s : Sdict) : mpegPre s ≠ .error .invalidCodec := by
  unfold mpegPre
  repeat' split
  all_goals simp

theorem enumStrField_ne_ic (flag : String) (allowed : List String)
    (dflt : String) (v : PyVal) :
    enumStrField flag allowed dflt v ≠ .error .invalidCodec := by
  unfold enumStrField
  split
  · simp
  · cases v <;> simp

theorem tierField_ne_ic (v : PyVal) : tierField v ≠ .error .invalidCodec := by
  unfold tierField
  split
  · simp
  · cases v <;> simp

theorem intGeField_ne_ic (flag : String) (lo : Int) (dflt : Option String)
    (v : PyVal) : intGeField flag lo dflt v ≠ .error .invalidCodec := by
  unfold intGeField
  repeat' split <;> simp

theorem boolTypeField_ne_ic (flag dflt : String) (v : PyVal) :
    boolTypeField flag dflt v ≠ .error .invalidCodec := by
  unfold boolTypeField
  split
  · simp
  · split
    · rename_i e heq
      intro hh
      injection hh with he
      subst he
      exact pyIntE_ne_ic _ heq
    · simp

theorem boolInField_ne_ic (flag dflt : String) (v : PyVal) :
    boolInField flag dflt v ≠ .error .invalidCodec := by
  unfold boolInField
  split <;> split <;> first
    | (rename_i e heq
       intro hh
       injection hh with he
       subst he
       exact pyIntE_ne_ic _ heq)
    | simp

theorem hevcLookaheadField_ne_ic (v : PyVal) :
    hevcLookaheadField v ≠ .error .invalidCodec := by
  unfold hevcLookaheadField
  split
  · simp
  · cases v <;> simp

theorem hevcSurfacesField_ne_ic (safe : Sdict) (v : PyVal) :
    hevcSurfacesField safe v ≠ .error .invalidCodec := by
  unfold hevcSurfacesField
  repeat' split <;> simp

theorem hevcGpuField_ne_ic (v : PyVal) :
    hevcGpuField v ≠ .error .invalidCodec := by
  cases v <;> simp [hevcGpuField]

theorem fieldOpt_ne_ic (safe : Sdict) (key : String)
    (f : PyVal → Except PyErr (List PyVal))
    (hf : ∀ v, f v ≠ .error .invalidCodec) :
    fieldOpt safe key f ≠ .error .invalidCodec := by
  unfold fieldOpt
  cases dGet? safe key with
  | none => simp
  | some v => exact hf v

theorem seqFields_ne_ic : ∀ (xs : List (Except PyErr (List PyVal))),
    (∀ x ∈ xs, x ≠ .error .invalidCodec) →
    seqFields xs ≠ .error .invalidCodec
  | [], _ => by simp [seqFields]
  | x :: rest, h => by
    unfold seqFields
    cases x with
    | error e => exact h _ (List.mem_cons_self _ _)
    | ok l =>
      cases hrec : seqFields rest with
      | error e =>
        have := seqFields_ne_ic rest (fun y hy => h y (List.mem_cons_of_mem _ hy))
        rw [hrec] at this
        exact this
      | ok ls => simp

theorem h264NvencHook_ne_ic (s : Sdict) :
    h264NvencHook s ≠ .error .invalidCodec := by
  unfold h264NvencHook
  apply seqFields_ne_ic
  intro x hx
  simp only [List.mem_cons, List.not_mem_nil, or_false] at hx
  rcases hx with rfl | rfl | rfl | rfl | rfl | rfl | rfl | rfl | rfl | rfl
    | rfl | rfl | rfl | rfl | rfl | rfl | rfl | rfl | rfl | rfl | rfl | rfl <;>
    first
      | exact fieldOpt_ne_ic _ _ _ (fun v => enumStrField_ne_ic _ _ _ v)
      | exact fieldOpt_ne_ic _ _ _ (fun v => intGeField_ne_ic _ _ _ v)
      | exact fieldOpt_ne_ic _ _ _ (fun v => boolTypeField_ne_ic _ _ v)
      | exact fieldOpt_ne_ic _ _ _ (fun v => by simp)

theorem hevcNvencHook_ne_ic (s : Sdict) :
    hevcNvencHook s ≠ .error .invalidCodec := by
  unfold hevcNvencHook
  apply seqFields_ne_ic
  intro x hx
  simp only [List.mem_cons, List.not_mem_nil, or_false] at hx
  rcases hx with rfl | rfl | rfl | rfl | rfl | rfl | rfl | rfl | rfl | rfl
    | rfl | rfl | rfl | rfl | rfl | rfl | rfl | rfl | rfl | rfl | rfl | rfl <;>
    first
      | exact fieldOpt_ne_ic _ _ _ (fun v => enumStrField_ne_ic _ _ _ v)
      | exact fieldOpt_ne_ic _ _ _ (fun v => tierField_ne_ic v)
      | exact fieldOpt_ne_ic _ _ _ (fun v => hevcLookaheadField_ne_ic v)
      | exact fieldOpt_ne_ic _ _ _ (fun v => hevcSurfacesField_ne_ic _ v)
      | exact fieldOpt_ne_ic _ _ _ (fun v => boolInField_ne_ic _ _ v)
      | exact fieldOpt_ne_ic _ _ _ (fun v => hevcGpuField_ne_ic v)
      | exact fieldOpt_ne_ic _ _ _ (fun v => intGeField_ne_ic _ _ _ v)
      | exact fieldOpt_ne_ic _ _ _ (fun v => by simp)

theorem videoTail_ne_ic (bad : Bool) (post : Except PyErr (List PyVal))
    (ol : List PyVal) (hp : post ≠ .error .invalidCodec) :
    videoTail bad post ol ≠ .error .invalidCodec := by
  unfold videoTail
  split
  · simp
  · exact onOk_ne _ _ hp fun a => by simp

theorem videoBody_ne_ic (c : VCfg)
    (hpre : ∀ s, c.pre s ≠ .error .invalidCodec)
    (hpost : ∀ s, c.post s ≠ .error .invalidCodec) (opt : Sdict) :
    videoBody c opt ≠ .error .invalidCodec := by
  unfold videoBody
  refine onOk_ne _ _ (aspectCorrections_ne_ic _ _ _ _ _) fun whf => ?_
  refine onOk_ne _ _ (divBy2E_ne_ic _) fun w2 => ?_
  refine onOk_ne _ _ (divBy2E_ne_ic _) fun h2 => ?_
  refine onOk_ne _ _ (hpre _) fun safe => ?_
  refine onOk_ne _ _ (fpsFragment_ne_ic _) fun fr => ?_
  exact videoTail_ne_ic _ _ _ (hpost _)

theorem vCfg_pre_ne_ic (c : Codec) (s : Sdict) :
    (vCfg c).pre s ≠ .error .invalidCodec := by
  cases c <;> simp only [vCfg, plainVCfg] <;>
    first
      | exact idPre_ne_ic s
      | exact mpegPre_ne_ic s

theorem vCfg_post_ne_ic (c : Codec) (s : Sdict) :
    (vCfg c).post s ≠ .error .invalidCodec := by
  cases c <;> simp only [vCfg, plainVCfg] <;>
    first
      | exact purePost_ne_ic _ s
      | exact h264NvencHook_ne_ic s
      | exact hevcNvencHook_ne_ic s

theorem audioParse_ne_ic (c : ACfg) (opt : Sdict)
    (h : codecMatches c.name opt = true) :
    audioParse c opt ≠ .error .invalidCodec := by
  simp [audioParse, h]

theorem audioParse_mismatch (c : ACfg) (opt : Sdict)
    (h : codecMatches c.name opt = false) :
    audioParse c opt = .error .invalidCodec := by
  simp [audioParse, h]

theorem subRangeCheck_ne_ic (s : Sdict) :
    subRangeCheck s ≠ .error .invalidCodec := by
  unfold subRangeCheck subLangCheck
  repeat' split <;> simp

theorem subParse_ne_ic (c : SCfg) (opt : Sdict)
    (h : codecMatches c.name opt = true) :
    subParse c opt ≠ .error .invalidCodec := by
  unfold subParse
  rw [if_pos h]
  split
  · rename_i e heq
    intro hh
    injection hh with he
    subst he
    exact subRangeCheck_ne_ic _ heq
  · simp

theorem subParse_mismatch (c : SCfg) (opt : Sdict)
    (h : codecMatches c.name opt = false) :
    subParse c opt = .error .invalidCodec := by
  simp [subParse, h]

theorem videoParse_ne_ic (c : VCfg) (opt : Sdict)
    (hpre : ∀ s, c.pre s ≠ .error .invalidCodec)
    (hpost : ∀ s, c.post s ≠ .error .invalidCodec)
    (h : codecMatches c.name opt = true) :
    videoParse c opt ≠ .error .invalidCodec := by
  unfold videoParse
  rw [if_pos h]
  exact videoBody_ne_ic c hpre hpost opt

theorem videoParse_mismatch (c : VCfg) (opt : Sdict)
    (h : codecMatches c.name opt = false) :
    videoParse c opt = .error .invalidCodec := by
  simp [videoParse, h]

/-! The filter accumulator can never rewrite an emitted numeric token:
it only rewrites the successor of the first element equal to the filter
flag, the token's predecessor never equals the flag, and a rewritten
element gains a comma no flag contains. -/

theorem get?_some_lt {l : List PyVal} {n : Nat} {a : PyVal}
    (h : l.get? n = some a) : n < l.length := by
  by_contra hh
  rw [List.get?_eq_none.mpr (Nat.le_of_not_lt hh)] at h
  cases h

theorem findIdx?_some_aux (p : PyVal → Bool) :
    ∀ (l : List PyVal) (j i : Nat), List.findIdx? p l j = some i →
      j ≤ i ∧ ∃ x, l.get? (i - j) = some x ∧ p x = true
  | [], j, i => by
    intro h
    simp [List.findIdx?] at h
  | a :: l, j, i => by
    intro h
    simp only [List.findIdx?] at h
    split at h
    · rename_i hpa
      injection h with h2
      subst h2
      exact ⟨Nat.le_refl _, a, by simp, hpa⟩
    · obtain ⟨hle, x, hx, hpx⟩ := findIdx?_some_aux p l (j + 1) i h
      refine ⟨by omega, x, ?_, hpx⟩
      have he : i - j = (i - (j + 1)) + 1 := by omega
      rw [he]
      simpa using hx

theorem findIdx?_some (p : PyVal → Bool) (l : List PyVal) (i : Nat)
    (h : List.findIdx? p l = some i) :
    ∃ x, l.get? i = some x ∧ p x = true := by
  obtain ⟨-, x, hx, hpx⟩ := findIdx?_some_aux p l 0 i h
  exact ⟨x, by simpa using hx, hpx⟩

theorem pyEq_comma_flag (a b flag : String) (hc : ',' ∉ flag.data) :
    pyEq (.vstr (a ++ "," ++ b)) (.vstr flag) = false := by
  have : ((a ++ "," ++ b) == flag) = false := by
    rw [beq_eq_false_iff_ne]
    intro heq
    apply hc
    rw [← heq]
    show ',' ∈ ((a ++ ",") ++ b).data
    rw [String.data_append, String.data_append]
    exact List.mem_append.mpr
      (Or.inl (List.mem_append.mpr (Or.inr (by decide))))
  simpa [pyEq, pyToQ?] using this

theorem safePair_append (flag : String) (l l2 : List PyVal) (i : Nat)
    (tok : PyVal) (h : safePair flag l i tok) :
    safePair flag (l ++ l2) i tok := by
  obtain ⟨⟨y, hy, hne⟩, ht⟩ := h
  refine ⟨⟨y, ?_, hne⟩, ?_⟩
  · rw [List.get?_append (get?_some_lt hy)]
    exact hy
  · rw [List.get?_append (get?_some_lt ht)]
    exact ht

theorem safePair_create (flag : String) (l : List PyVal) (y tok : PyVal)
    (hne : pyEq y (.vstr flag) = false) :
    safePair flag (l ++ [y, tok]) l.length tok := by
  refine ⟨⟨y, ?_, hne⟩, ?_⟩
  · rw [List.get?_append_right (Nat.le_refl _)]
    simp
  · rw [List.get?_append_right (Nat.le_succ_of_le (Nat.le_refl _))]
    simp

theorem safePair_extendFilter (flag : String) (hc : ',' ∉ flag.data)
    (l : List PyVal) (v : PyVal) (i : Nat) (tok : PyVal)
    (h : safePair flag l i tok) :
    safePair flag (extendFilter flag l v) i tok := by
  unfold extendFilter
  split
  · split
    · rename_i j hf
      split
      · rename_i cur hget
        obtain ⟨⟨y, hy, hyne⟩, ht⟩ := h
        obtain ⟨x, hjx, hpx⟩ := findIdx?_some _ l j hf
        constructor
        · by_cases hij : j + 1 = i
          · refine ⟨.vstr (pyStr cur ++ "," ++ pyStr v), ?_,
              pyEq_comma_flag _ _ _ hc⟩
            rw [← hij]
            exact List.get?_set_eq_of_lt _ (get?_some_lt hget)
          · exact ⟨y, by rw [List.get?_set_ne _ _ hij]; exact hy, hyne⟩
        · have hij2 : j + 1 ≠ i + 1 := by
            intro heq
            have hji : j = i := by omega
            rw [hji, hy] at hjx
            injection hjx with hxy
            rw [← hxy] at hpx
            rw [hpx] at hyne
            cases hyne
          rw [List.get?_set_ne _ _ hij2]
          exact ht
      · exact h
    · exact safePair_append flag l _ i tok h
  · exact h

theorem safePairE_append (flag : String) (l l2 : List PyVal) (tok : PyVal)
    (h : ∃ i, safePair flag l i tok) :
    ∃ i, safePair flag (l ++ l2) i tok :=
  h.imp fun i hi => safePair_append flag l l2 i tok hi

theorem safePairE_extendFilter (flag : String) (hc : ',' ∉ flag.data)
    (l : List PyVal) (v : PyVal) (tok : PyVal)
    (h : ∃ i, safePair flag l i tok) :
    ∃ i, safePair flag (extendFilter flag l v) i tok :=
  h.imp fun i hi => safePair_extendFilter flag hc l v i tok hi

theorem safePairE_create (flag : String) (l : List PyVal) (y tok : PyVal)
    (hne : pyEq y (.vstr flag) = false) :
    ∃ i, safePair flag (l ++ [y, tok]) i tok :=
  ⟨l.length, safePair_create flag l y tok hne⟩

/-! Dict lookups unaffected by the intermediate stages. -/

theorem dGet?_dSet_ne (d : Sdict) (k : String) (v : PyVal) (k2 : String)
    (h : ¬ k = k2) : dGet? (dSet d k v) k2 = dGet? d k2 := by
  rw [dGet?_dSet, if_neg h]

theorem dGet?_ite_dSet_ne {c : Prop} [Decidable c] (d : Sdict) (k : String)
    (v : PyVal) (k2 : String) (h : ¬ k = k2) :
    dGet? (if c then dSet d k v else d) k2 = dGet? d k2 := by
  split
  · exact dGet?_dSet_ne d k v k2 h
  · rfl

theorem dGet?_ite_dSet2_ne {c : Prop} [Decidable c] (d : Sdict)
    (ka : String) (va : PyVal) (kb : String) (vb : PyVal) (k2 : String)
    (ha : ¬ ka = k2) (hb : ¬ kb = k2) :
    dGet? (if c then dSet (dSet d ka va) kb vb else d) k2 = dGet? d k2 := by
  split
  · rw [dGet?_dSet_ne _ _ _ _ hb, dGet?_dSet_ne _ _ _ _ ha]
  · rfl

theorem cropStage_get_ne (s : Sdict) (k : String) (h : ¬ "crop" = k) :
    dGet? (cropStage s).1 k = dGet? s k := by
  unfold cropStage
  repeat' split
  all_goals first
    | rfl
    | (show dGet? (dDel s "crop") k = dGet? s k
       rw [dGet?_dDel, if_neg h])

theorem videoGeomDict_get_ne (safe1 : Sdict) (filt : Option String)
    (w2 h2 : Int) (k : String) (hw : ¬ "max_width" = k)
    (hh : ¬ "max_height" = k) (hf : ¬ "aspect_filters" = k)
    (ha : ¬ "aspect" = k) :
    dGet? (videoGeomDict safe1 filt w2 h2).1 k = dGet? safe1 k := by
  unfold videoGeomDict
  dsimp only
  rw [dGet?_ite_dSet_ne _ _ _ _ ha, dGet?_ite_dSet2_ne _ _ _ _ _ _ hw hh,
    dGet?_dSet_ne _ _ _ _ hf, dGet?_dSet_ne _ _ _ _ hh,
    dGet?_dSet_ne _ _ _ _ hw]

theorem mpegPre_get_ne (s s2 : Sdict) (hp : mpegPre s = .ok s2)
    (k : String) (h : ¬ "aspect_filters" = k) :
    dGet? s2 k = dGet? s k := by
  unfold mpegPre at hp
  repeat' split at hp
  all_goals (try cases hp)
  all_goals first
    | rfl
    | rw [dGet?_dSet_ne _ _ _ _ h]

theorem audioRangeCheck_get_other (s : Sdict) (k : String)
    (h1 : ¬ "channels" = k) (h2 : ¬ "bitrate" = k)
    (h3 : ¬ "samplerate" = k) :
    dGet? (audioRangeCheck s) k = dGet? s k := by
  unfold audioRangeCheck
  rw [stepDel_get_ne _ _ _ _ h3, stepDel_get_ne _ _ _ _ h2,
    stepDel_get_ne _ _ _ _ h1]

theorem onOk_ok_inv {α β : Type} {x : Except PyErr α}
    {f : α → Except PyErr β} {l : β} (h : onOk x f = .ok l) :
    ∃ a, x = .ok a ∧ f a = .ok l := by
  cases x with
  | error e => simp [onOk] at h
  | ok a => exact ⟨a, rfl, by simpa [onOk] using h⟩

theorem fpsFragment_eval (safe : Sdict) (q : PyQ)
    (h : dGet? safe "fps" = some (.vfloat q)) :
    fpsFragment safe = .ok [.vstr "-r", .vstr (pyFloatStr (pyRound2 q))] := by
  unfold fpsFragment
  rw [h]
  rfl

/-! Token-format lemmas for the fps and bitrate emissions. -/

set_option maxHeartbeats 2000000 in
theorem videoEmitList_fps_tok (ff : String) (safe : Sdict) (w3 h3 : Int)
    (tok : String) :
    ∃ i, safePair "-vf"
      (videoEmitList ff safe w3 h3 [.vstr "-r", .vstr tok]) i
      (.vstr tok) := by
  unfold videoEmitList
  dsimp only
  repeat' split
  all_goals repeat
    first
      | exact safePairE_create _ _ _ _ (by decide)
      | apply safePairE_append
      | apply safePairE_extendFilter _ (by decide)

set_option maxHeartbeats 2000000 in
theorem videoEmitList_vb_tok (ff : String) (safe : Sdict) (w3 h3 : Int)
    (fpsFrag : List PyVal) (v : PyVal)
    (hbr : dGet? safe "bitrate" = some v) :
    ∃ i, safePair "-vf" (videoEmitList ff safe w3 h3 fpsFrag) i
      (.vstr (pyStr v ++ "M")) := by
  unfold videoEmitList
  dsimp only
  simp only [hbr]
  repeat' split
  all_goals repeat
    first
      | exact safePairE_create _ _ _ _ (by decide)
      | apply safePairE_append
      | apply safePairE_extendFilter _ (by decide)

theorem videoBody_token_mem (c : VCfg) (opt : Sdict) (l : List PyVal)
    (hpre : ∀ s s2, c.pre s = .ok s2 →
      dGet? s2 "fps" = dGet? s "fps"
      ∧ dGet? s2 "bitrate" = dGet? s "bitrate")
    (hok : videoBody c opt = .ok l) :
    (∀ q : PyQ,
      dGet? (videoRangeCheck (safeOptions c.enc opt)) "fps"
        = some (.vfloat q) →
      PyVal.vstr (pyFloatStr (pyRound2 q)) ∈ l)
    ∧ (∀ q : PyQ,
      dGet? (videoRangeCheck (safeOptions c.enc opt)) "bitrate"
        = some (.vfloat q) →
      PyVal.vstr (pyFloatStr q ++ "M") ∈ l) := by
  unfold videoBody at hok
  obtain ⟨whf, hA, hok⟩ := onOk_ok_inv hok
  obtain ⟨w2, hW2, hok⟩ := onOk_ok_inv hok
  obtain ⟨h2, hH2, hok⟩ := onOk_ok_inv hok
  obtain ⟨safe, hPre, hok⟩ := onOk_ok_inv hok
  obtain ⟨fr, hFr, hok⟩ := onOk_ok_inv hok
  unfold videoTail at hok
  split at hok
  · cases hok
  · obtain ⟨extra, hPost, hok⟩ := onOk_ok_inv hok
    injection hok with hl
    subst hl
    have hfpsEq : dGet? safe "fps"
        = dGet? (videoRangeCheck (safeOptions c.enc opt)) "fps" := by
      rw [(hpre _ _ hPre).1]
      rw [videoGeomDict_get_ne _ _ _ _ _ (by decide) (by decide) (by decide)
        (by decide)]
      rw [cropStage_get_ne _ _ (by decide)]
    have hbrEq : dGet? safe "bitrate"
        = dGet? (videoRangeCheck (safeOptions c.enc opt)) "bitrate" := by
      rw [(hpre _ _ hPre).2]
      rw [videoGeomDict_get_ne _ _ _ _ _ (by decide) (by decide) (by decide)
        (by decide)]
      rw [cropStage_get_ne _ _ (by decide)]
    constructor
    · intro q hq
      rw [← hfpsEq] at hq
      have hfr2 : fr = [.vstr "-r", .vstr (pyFloatStr (pyRound2 q))] := by
        have he := fpsFragment_eval safe q hq
        rw [he] at hFr
        injection hFr with h3
        exact h3.symm
      subst hfr2
      obtain ⟨i, hsp⟩ := videoEmitList_fps_tok c.ff safe _ _
        (pyFloatStr (pyRound2 q))
      exact List.mem_append.mpr (Or.inl (List.get?_mem hsp.2))
    · intro q hq
      rw [← hbrEq] at hq
      obtain ⟨i, hsp⟩ := videoEmitList_vb_tok c.ff safe _ _ fr _ hq
      exact List.mem_append.mpr (Or.inl (List.get?_mem hsp.2))

theorem videoParse_token_mem (c : VCfg) (opt : Sdict) (l : List PyVal)
    (hpre : ∀ s s2, c.pre s = .ok s2 →
      dGet? s2 "fps" = dGet? s "fps"
      ∧ dGet? s2 "bitrate" = dGet? s "bitrate")
    (hok : videoParse c opt = .ok l) :
    (∀ q : PyQ,
      dGet? (videoRangeCheck (safeOptions c.enc opt)) "fps"
        = some (.vfloat q) →
      PyVal.vstr (pyFloatStr (pyRound2 q)) ∈ l)
    ∧ (∀ q : PyQ,
      dGet? (videoRangeCheck (safeOptions c.enc opt)) "bitrate"
        = some (.vfloat q) →
      PyVal.vstr (pyFloatStr q ++ "M") ∈ l) := by
  unfold videoParse at hok
  split at hok
  · exact videoBody_token_mem c opt l hpre hok
  · cases hok

set_option maxHeartbeats 2000000 in
theorem audioBody_k_token (c : ACfg) (opt : Sdict) (b : Int)
    (hvol : sLookup c.enc "volume" = Option.none)
    (hbr : dGet? (audioRangeCheck (safeOptions c.enc opt)) "bitrate"
      = some (.vint b)) :
    PyVal.vstr (toString b ++ "k") ∈ audioBody c opt := by
  have hvnone : dGet? (audioRangeCheck (safeOptions c.enc opt)) "volume"
      = Option.none := by
    rw [audioRangeCheck_get_other _ _ (by decide) (by decide) (by decide)]
    cases hv : dGet? (safeOptions c.enc opt) "volume" with
    | none => rfl
    | some v =>
      obtain ⟨t, hl, -⟩ := safeFold_typed c.enc opt []
        (fun k v hh => by simp [dGet?] at hh) "volume" v hv
      rw [hvol] at hl
      cases hl
  have hEx : ∃ i, safePair "-af" (audioBody c opt) i
      (.vstr (toString b ++ "k")) := by
    unfold audioBody
    dsimp only
    simp only [hvnone, hbr, pyStr]
    repeat' split
    all_goals repeat
      first
        | exact safePairE_create _ _ _ _ (by decide)
        | apply safePairE_append
        | apply safePairE_extendFilter _ (by decide)
  obtain ⟨i, hsp⟩ := hEx
  exact List.get?_mem hsp.2

theorem audioParse_k_token (c : ACfg) (opt : Sdict) (l : List PyVal)
    (b : Int) (hvol : sLookup c.enc "volume" = Option.none)
    (hok : audioParse c opt = .ok l)
    (hbr : dGet? (audioRangeCheck (safeOptions c.enc opt)) "bitrate"
      = some (.vint b)) :
    PyVal.vstr (toString b ++ "k") ∈ l := by
  unfold audioParse at hok
  split at hok
  · injection hok with h2
    rw [← h2]
    exact audioBody_k_token c opt b hvol hbr
  · cases hok

theorem idPre_keeps (s s2 : Sdict) (hp : idPre s = .ok s2) :
    dGet? s2 "fps" = dGet? s "fps"
    ∧ dGet? s2 "bitrate" = dGet? s "bitrate" := by
  injection hp with h2
  subst h2
  exact ⟨rfl, rfl⟩

theorem mpegPre_keeps (s s2 : Sdict) (hp : mpegPre s = .ok s2) :
    dGet? s2 "fps" = dGet? s "fps"
    ∧ dGet? s2 "bitrate" = dGet? s "bitrate" :=
  ⟨mpegPre_get_ne _ _ hp _ (by decide), mpegPre_get_ne _ _ hp _ (by decide)⟩

theorem fpsToken_general (q : PyQ) (hden : 0 < q.den) (hlo : q.den ≤ q.num)
    (hhi : q.num ≤ 120 * q.den) :
    parseOptions .h264
      [("codec", .vstr "h264"), ("fps", .vfloat q),
       ("src_width", .vint 640), ("src_height", .vint 480),
       ("max_width", .vint 640), ("max_height", .vint 480)]
    = .ok [.vstr "-vcodec", .vstr "libx264", .vstr "-pix_fmt",
           .vstr "yuv420p", .vstr "-r", .vstr (pyFloatStr (pyRound2 q)),
           .vstr "-s", .vstr "640x480", .vstr "-aspect", .vstr "640:480"] := by
  have hbad : badOutside (.vint 1) (.vint 120) (.vfloat q) = false := by
    simp [badOutside, pyLT, pyToQ?, PyQ.ofInt, PyQ.blt]
    omega
  have hrc : videoRangeCheck (safeOptions (vCfg .h264).enc
      [("codec", .vstr "h264"), ("fps", .vfloat q),
       ("src_width", .vint 640), ("src_height", .vint 480),
       ("max_width", .vint 640), ("max_height", .vint 480)])
      = [("codec", .vstr "h264"), ("fps", .vfloat q),
         ("src_width", .vint 640), ("src_height", .vint 480),
         ("max_width", .vint 640), ("max_height", .vint 480)] := by
    show videoRangeCheck
      [("codec", .vstr "h264"), ("fps", .vfloat q),
       ("src_width", .vint 640), ("src_height", .vint 480),
       ("max_width", .vint 640), ("max_height", .vint 480)] = _
    have h1 : stepDel "fps" (badOutside (.vint 1) (.vint 120))
        [("codec", .vstr "h264"), ("fps", .vfloat q),
         ("src_width", .vint 640), ("src_height", .vint 480),
         ("max_width", .vint 640), ("max_height", .vint 480)]
        = [("codec", .vstr "h264"), ("fps", .vfloat q),
           ("src_width", .vint 640), ("src_height", .vint 480),
           ("max_width", .vint 640), ("max_height", .vint 480)] :=
      stepDel_self_eq _ _ _ (fun v hv => by
        have hv2 : some (PyVal.vfloat q) = some v := hv
        injection hv2 with h3
        subst h3
        exact hbad)
    have h2 : stepDel "bitrate"
        (badOutside (.vfloat ⟨1, 10⟩) (.vfloat ⟨200, 1⟩))
        [("codec", .vstr "h264"), ("fps", .vfloat q),
         ("src_width", .vint 640), ("src_height", .vint 480),
         ("max_width", .vint 640), ("max_height", .vint 480)]
        = [("codec", .vstr "h264"), ("fps", .vfloat q),
           ("src_width", .vint 640), ("src_height", .vint 480),
           ("max_width", .vint 640), ("max_height", .vint 480)] :=
      stepDel_self_eq _ _ _ (fun v hv => by
        exact absurd (show (Option.none : Option PyVal) = some v from hv)
          (by simp))
    have h3 : stepDel "bufsize" (badOutside (.vint 1) (.vint 10000))
        [("codec", .vstr "h264"), ("fps", .vfloat q),
         ("src_width", .vint 640), ("src_height", .vint 480),
         ("max_width", .vint 640), ("max_height", .vint 480)]
        = [("codec", .vstr "h264"), ("fps", .vfloat q),
           ("src_width", .vint 640), ("src_height", .vint 480),
           ("max_width", .vint 640), ("max_height", .vint 480)] :=
      stepDel_self_eq _ _ _ (fun v hv => by
        exact absurd (show (Option.none : Option PyVal) = some v from hv)
          (by simp))
    unfold videoRangeCheck
    rw [h1, h2, h3]
  show videoBody (vCfg .h264)
    [("codec", .vstr "h264"), ("fps", .vfloat q),
     ("src_width", .vint 640), ("src_height", .vint 480),
     ("max_width", .vint 640), ("max_height", .vint 480)] = _
  unfold videoBody
  rw [hrc]
  rfl

theorem audioBitrateToken_general (b : Int) (hlo : 8 ≤ b) (hhi : b ≤ 512) :
    parseOptions .mp3 [("codec", .vstr "mp3"), ("bitrate", .vint b)]
    = .ok [.vstr "-acodec", .vstr "libmp3lame", .vstr "-ab",
           .vstr (toString b ++ "k")] := by
  have hbad : badOutside (.vint 8) (.vint 512) (.vint b) = false := by
    simp [badOutside, pyLT, pyToQ?, PyQ.ofInt, PyQ.blt]
    omega
  have hrc : audioRangeCheck (safeOptions (aCfg .mp3).enc
      [("codec", .vstr "mp3"), ("bitrate", .vint b)])
      = [("codec", .vstr "mp3"), ("bitrate", .vint b)] := by
    show audioRangeCheck [("codec", .vstr "mp3"), ("bitrate", .vint b)] = _
    have h1 : stepDel "channels" (badOutside (.vint 1) (.vint 12))
        [("codec", .vstr "mp3"), ("bitrate", .vint b)]
        = [("codec", .vstr "mp3"), ("bitrate", .vint b)] :=
      stepDel_self_eq _ _ _ (fun v hv => by
        exact absurd (show (Option.none : Option PyVal) = some v from hv)
          (by simp))
    have h2 : stepDel "bitrate" (badOutside (.vint 8) (.vint 512))
        [("codec", .vstr "mp3"), ("bitrate", .vint b)]
        = [("codec", .vstr "mp3"), ("bitrate", .vint b)] :=
      stepDel_self_eq _ _ _ (fun v hv => by
        have hv2 : some (PyVal.vint b) = some v := hv
        injection hv2 with h3
        subst h3
        exact hbad)
    have h3 : stepDel "samplerate" (badOutside (.vint 1000) (.vint 50000))
        [("codec", .vstr "mp3"), ("bitrate", .vint b)]
        = [("codec", .vstr "mp3"), ("bitrate", .vint b)] :=
      stepDel_self_eq _ _ _ (fun v hv => by
        exact absurd (show (Option.none : Option PyVal) = some v from hv)
          (by simp))
    unfold audioRangeCheck
    rw [h1, h2, h3]
  show Except.ok (audioBody (aCfg .mp3)
    [("codec", .vstr "mp3"), ("bitrate", .vint b)]) = _
  unfold audioBody
  rw [hrc]
  rfl

theorem videoBitrateToken_general (q : PyQ) (hden : 0 < q.den)
    (hlo : q.den ≤ 10 * q.num) (hhi : q.num ≤ 200 * q.den) :
    parseOptions .h264
      [("codec", .vstr "h264"), ("bitrate", .vfloat q),
       ("src_width", .vint 640), ("src_height", .vint 480),
       ("max_width", .vint 640), ("max_height", .vint 480)]
    = .ok [.vstr "-vcodec", .vstr "libx264", .vstr "-pix_fmt",
           .vstr "yuv420p", .vstr "-vb", .vstr (pyFloatStr q ++ "M"),
           .vstr "-s", .vstr "640x480", .vstr "-aspect", .vstr "640:480"] := by
  have hbad : badOutside (.vfloat ⟨1, 10⟩) (.vfloat ⟨200, 1⟩) (.vfloat q)
      = false := by
    simp [badOutside, pyLT, pyToQ?, PyQ.ofInt, PyQ.blt]
    omega
  have hrc : videoRangeCheck (safeOptions (vCfg .h264).enc
      [("codec", .vstr "h264"), ("bitrate", .vfloat q),
       ("src_width", .vint 640), ("src_height", .vint 480),
       ("max_width", .vint 640), ("max_height", .vint 480)])
      = [("codec", .vstr "h264"), ("bitrate", .vfloat q),
         ("src_width", .vint 640), ("src_height", .vint 480),
         ("max_width", .vint 640), ("max_height", .vint 480)] := by
    show videoRangeCheck
      [("codec", .vstr "h264"), ("bitrate", .vfloat q),
       ("src_width", .vint 640), ("src_height", .vint 480),
       ("max_width", .vint 640), ("max_height", .vint 480)] = _
    have h1 : stepDel "fps" (badOutside (.vint 1) (.vint 120))
        [("codec", .vstr "h264"), ("bitrate", .vfloat q),
         ("src_width", .vint 640), ("src_height", .vint 480),
         ("max_width", .vint 640), ("max_height", .vint 480)]
        = [("codec", .vstr "h264"), ("bitrate", .vfloat q),
           ("src_width", .vint 640), ("src_height", .vint 480),
           ("max_width", .vint 640), ("max_height", .vint 480)] :=
      stepDel_self_eq _ _ _ (fun v hv => by
        exact absurd (show (Option.none : Option PyVal) = some v from hv)
          (by simp))
    have h2 : stepDel "bitrate"
        (badOutside (.vfloat ⟨1, 10⟩) (.vfloat ⟨200, 1⟩))
        [("codec", .vstr "h264"), ("bitrate", .vfloat q),
         ("src_width", .vint 640), ("src_height", .vint 480),
         ("max_width", .vint 640), ("max_height", .vint 480)]
        = [("codec", .vstr "h264"), ("bitrate", .vfloat q),
           ("src_width", .vint 640), ("src_height", .vint 480),
           ("max_width", .vint 640), ("max_height", .vint 480)] :=
      stepDel_self_eq _ _ _ (fun v hv => by
        have hv2 : some (PyVal.vfloat q) = some v := hv
        injection hv2 with h3
        subst h3
        exact hbad)
    have h3 : stepDel "bufsize" (badOutside (.vint 1) (.vint 10000))
        [("codec", .vstr "h264"), ("bitrate", .vfloat q),
         ("src_width", .vint 640), ("src_height", .vint 480),
         ("max_width", .vint 640), ("max_height", .vint 480)]
        = [("codec", .vstr "h264"), ("bitrate", .vfloat q),
           ("src_width", .vint 640), ("src_height", .vint 480),
           ("max_width", .vint 640), ("max_height", .vint 480)] :=
      stepDel_self_eq _ _ _ (fun v hv => by
        exact absurd (show (Option.none : Option PyVal) = some v from hv)
          (by simp))
    unfold videoRangeCheck
    rw [h1, h2, h3]
  show videoBody (vCfg .h264)
    [("codec", .vstr "h264"), ("bitrate", .vfloat q),
     ("src_width", .vint 640), ("src_height", .vint 480),
     ("max_width", .vint 640), ("max_height", .vint 480)] = _
  unfold videoBody
  rw [hrc]
  rfl

/-! Claim theorems. -/

/-- C1: the claim says that under policy Fit (and the engaged ShrinkToFit)
the resolved dimensions never exceed the maxima.  False: Python 2 floor
division makes float(sh / sw) compare 0 against max_height for every
landscape source, so Fit scales by max_height / sh and the resolved width
can exceed max_width.  For source 1920x1080 and maxima 640x640 the
resolver returns width 1137 (1138 after even-rounding, as the emitted
-s 1138x640 of the full pipeline shows), exceeding max_width 640. -/
theorem c1_fit_exceeds_max :
    aspectCorrections (some 1920) (some 1080) (some 640) (some 640) "Fit"
      = .ok (some 1137, some 640, Option.none)
    ∧ (640 : Int) < 1137
    ∧ parseOptions .h264
        [("codec", .vstr "h264"), ("src_width", .vint 1920),
         ("src_height", .vint 1080), ("max_width", .vint 640),
         ("max_height", .vint 640), ("sizing_policy", .vstr "Fit")]
      = .ok [.vstr "-vcodec", .vstr "libx264", .vstr "-pix_fmt",
             .vstr "yuv420p", .vstr "-s", .vstr "1138x640",
             .vstr "-aspect", .vstr "1138:640"] := by
  refine ⟨by decide, by decide, by decide⟩

/-- C2: the claim says that with any of the four dimensions missing the
geometry stage echoes the max values and parse_options never raises.
False on both counts: the guard returns the source values (here
1920x1080 despite both maxima being absent, flowing into -s 1920x1080),
and when no dimension is known at all _div_by_2(None) evaluates
None % 2, so parse_options raises TypeError for a bare video request. -/
theorem c2_missing_dims :
    parseOptions .h264 [("codec", .vstr "h264")] = .error .typeError
    ∧ aspectCorrections (some 1920) (some 1080) Option.none Option.none "Keep"
      = .ok (some 1920, some 1080, Option.none)
    ∧ parseOptions .h264
        [("codec", .vstr "h264"), ("src_width", .vint 1920),
         ("src_height", .vint 1080)]
      = .ok [.vstr "-vcodec", .vstr "libx264", .vstr "-pix_fmt",
             .vstr "yuv420p", .vstr "-s", .vstr "1920x1080",
             .vstr "-aspect", .vstr "1920:1080"] := by
  refine ⟨by decide, by decide, by decide⟩

/-- C3: the claim says the Fill scenario 1920x1080 into 640x640 covers 640
on the constraining axis and emits crop=640:640:offset:0 with offset
(scaled - 640) / 2.  False: floor division picks the scale-width branch,
giving 640x360 (not covering 640) with fragment crop=640:640:-140:0, and
parse_options then raises TypeError because line 436 calls _extend_vf
with the filter string in place of the option list, dropping the value
argument. -/
theorem c3_fill_scenario :
    aspectCorrections (some 1920) (some 1080) (some 640) (some 640) "Fill"
      = .ok (some 640, some 360, some "crop=640:640:-140:0")
    ∧ parseOptions .h264
        [("codec", .vstr "h264"), ("src_width", .vint 1920),
         ("src_height", .vint 1080), ("max_width", .vint 640),
         ("max_height", .vint 640), ("sizing_policy", .vstr "Fill")]
      = .error .typeError := by
  refine ⟨by decide, by decide⟩

/-- C4: the claim says ShrinkToFit leaves a fitting source unchanged
(true, second conjunct) and that ShrinkToFill leaves a source meeting or
exceeding both maxima unchanged.  The latter is false: that branch
(line 324) returns int(sw * factor) with factor never assigned, raising
UnboundLocalError, as for source 1920x1080 against maxima 640x480. -/
theorem c4_shrink_policies :
    aspectCorrections (some 1920) (some 1080) (some 640) (some 480)
      "ShrinkToFill" = .error .unboundLocal
    ∧ aspectCorrections (some 600) (some 400) (some 640) (some 480)
      "ShrinkToFit" = .ok (some 600, some 400, Option.none) := by
  refine ⟨by decide, by decide⟩

/-- C5: the claim says every invalid nvenc field is replaced by a default
whose flag is still appended and never aborts the request.  False twice:
an invalid hevc tier hits the misspelled exntend call and aborts with
AttributeError, and an invalid h264 nvenc delay only logs, appending no
-delay flag at all (the returned list below has none). -/
theorem c5_nvenc_invalid_fields :
    parseOptions .hevcNvenc
      [("codec", .vstr "nvenc_hevc"), ("tier", .vstr "silver"),
       ("src_width", .vint 1920), ("src_height", .vint 1080),
       ("max_width", .vint 640), ("max_height", .vint 480)]
      = .error .attributeError
    ∧ parseOptions .h264Nvenc
        [("codec", .vstr "nvenc_h264"), ("delay", .vint (-1)),
         ("src_width", .vint 640), ("src_height", .vint 480),
         ("max_width", .vint 640), ("max_height", .vint 480)]
      = .ok [.vstr "-vcodec", .vstr "nvenc_h264", .vstr "-pix_fmt",
             .vstr "yuv420p", .vstr "-s", .vstr "640x480",
             .vstr "-aspect", .vstr "640:480"]
    ∧ PyVal.vstr "-delay" ∉
        [PyVal.vstr "-vcodec", .vstr "nvenc_h264", .vstr "-pix_fmt",
         .vstr "yuv420p", .vstr "-s", .vstr "640x480",
         .vstr "-aspect", .vstr "640:480"] := by
  refine ⟨by decide, by decide, by decide⟩

/-- C8: the claim says every element of every returned argument list is a
string.  False: VorbisCodec appends the int quality value raw (it writes
the number itself where every other emission site stringifies), so
parse_options on a vorbis request with quality 3 returns a list that
contains the element int 3, which is not a string; TheoraCodec does the
same with its quality 5.  Each conjunct below is the full parse result
followed by the offending member and the fact that it is not a string. -/
theorem c8_vorbis_raw_int :
    parseOptions .vorbis [("codec", .vstr "vorbis"), ("quality", .vint 3)]
      = .ok [.vstr "-acodec", .vstr "libvorbis", .vstr "-qscale:a", .vint 3]
    ∧ PyVal.vint 3 ∈ [PyVal.vstr "-acodec", .vstr "libvorbis",
        .vstr "-qscale:a", .vint 3]
    ∧ pyIsStr (.vint 3) = false
    ∧ parseOptions .theora
        [("codec", .vstr "theora"), ("quality", .vint 5),
         ("src_width", .vint 640), ("src_height", .vint 480),
         ("max_width", .vint 640), ("max_height", .vint 480)]
      = .ok [.vstr "-vcodec", .vstr "libtheora", .vstr "-pix_fmt",
             .vstr "yuv420p", .vstr "-s", .vstr "640x480",
             .vstr "-aspect", .vstr "640:480", .vstr "-qscale:v",
             .vint 5]
    ∧ PyVal.vint 5 ∈ [PyVal.vstr "-vcodec", .vstr "libtheora",
        .vstr "-pix_fmt", .vstr "yuv420p", .vstr "-s", .vstr "640x480",
        .vstr "-aspect", .vstr "640:480", .vstr "-qscale:v", .vint 5]
    ∧ pyIsStr (.vint 5) = false := by
  refine ⟨by decide, by decide, by decide, by decide, by decide, by decide⟩

/-- C10 counterexample: the claim says fps 23.5 is emitted as the exact
token 23.50; the pipeline emits str(round(23.5, 2)), which is 23.5, and
no 23.50 token appears anywhere in the returned list. -/
theorem c10_fps_token_counterexample :
    parseOptions .h264
      [("codec", .vstr "h264"), ("fps", .vfloat ⟨235, 10⟩),
       ("src_width", .vint 640), ("src_height", .vint 480),
       ("max_width", .vint 640), ("max_height", .vint 480)]
      = .ok [.vstr "-vcodec", .vstr "libx264", .vstr "-pix_fmt",
             .vstr "yuv420p", .vstr "-r", .vstr "23.5",
             .vstr "-s", .vstr "640x480", .vstr "-aspect", .vstr "640:480"]
    ∧ PyVal.vstr "23.50" ∉
        [PyVal.vstr "-vcodec", .vstr "libx264", .vstr "-pix_fmt",
         .vstr "yuv420p", .vstr "-r", .vstr "23.5",
         .vstr "-s", .vstr "640x480", .vstr "-aspect", .vstr "640:480"] := by
  refine ⟨by decide, by decide⟩

/-- C9: the range/enum validation stage is idempotent.  Re-running the
audio check (channels, bitrate, samplerate), the video check (fps,
bitrate, bufsize), or the subtitle check (forced, default, language) on
its own output changes nothing, and a max dimension surviving the
[16,4000] / [16,3000] check with even-rounding is returned unchanged by a
second application. -/
theorem c9_range_validator_idempotent :
    (∀ s : Sdict, audioRangeCheck (audioRangeCheck s) = audioRangeCheck s)
    ∧ (∀ s : Sdict, videoRangeCheck (videoRangeCheck s) = videoRangeCheck s)
    ∧ (∀ s s2 : Sdict, subRangeCheck s = .ok s2 → subRangeCheck s2 = .ok s2)
    ∧ (∀ w w2 : Int, checkDimVal 16 4000 w = some w2 →
        checkDimVal 16 4000 w2 = some w2)
    ∧ (∀ w w2 : Int, checkDimVal 16 3000 w = some w2 →
        checkDimVal 16 3000 w2 = some w2) :=
  ⟨audioRangeCheck_idem, videoRangeCheck_idem, subRangeCheck_idem,
    fun w w2 h => checkDimVal_stable 4000 w w2 (by decide) h,
    fun w w2 h => checkDimVal_stable 3000 w w2 (by decide) h⟩

/-- C9 witness: the subtitle check dropping an out-of-range forced value
and an over-long language, re-applied, and an odd max width bumped to
even and then stable. -/
theorem c9_witness :
    subRangeCheck
      (stepDel "default" (badOutside (.vint 0) (.vint 1))
        (stepDel "forced" (badOutside (.vint 0) (.vint 1))
          [("forced", PyVal.vint 7), ("language", PyVal.vstr "x")]))
      = .ok [("language", PyVal.vstr "x")]
    ∧ checkDimVal 16 4000 100 = some 100 :=
  ⟨c9_range_validator_idempotent.2.2.1
      [("forced", PyVal.vint 7), ("language", PyVal.vstr "x")]
      [("language", PyVal.vstr "x")] (by decide),
    c9_range_validator_idempotent.2.2.2.1 99 100 (by decide)⟩

/-- C6: for every non-null, non-copy codec and every option mapping, a
missing or mismatching codec entry makes parse_options fail with the
InvalidCodec hard failure immediately (whatever else is in the mapping,
no option is processed or emitted), and a matching codec identifier never
produces that failure anywhere in the pipeline. -/
theorem c6_invalid_codec_check (c : Codec) (hc : c ∈ realCodecs)
    (opt : Sdict) :
    (codecMatches (codecIdName c) opt = false →
      parseOptions c opt = .error .invalidCodec)
    ∧ (codecMatches (codecIdName c) opt = true →
      parseOptions c opt ≠ .error .invalidCodec) := by
  fin_cases hc <;>
    refine ⟨fun hf => ?_, fun ht => ?_⟩ <;>
    first
      | exact audioParse_mismatch _ _ hf
      | exact audioParse_ne_ic _ _ ht
      | exact subParse_mismatch _ _ hf
      | exact subParse_ne_ic _ _ ht
      | exact videoParse_mismatch _ _ hf
      | exact videoParse_ne_ic _ _ (fun s => vCfg_pre_ne_ic _ s)
          (fun s => vCfg_post_ne_ic _ s) ht

/-- C6 witness: a vorbis descriptor fed an aac request fails with
InvalidCodec even though the request would crash later stages, and the
matching request does not produce InvalidCodec. -/
theorem c6_witness :
    parseOptions .vorbis [("codec", PyVal.vstr "aac")] = .error .invalidCodec
    ∧ parseOptions .vorbis [("codec", PyVal.vstr "vorbis")]
      ≠ .error .invalidCodec :=
  ⟨(c6_invalid_codec_check .vorbis (by decide) _).1 (by decide),
   (c6_invalid_codec_check .vorbis (by decide) _).2 (by decide)⟩

/-- C10 amended: for every real (non-null, non-copy) video codec variant
and every request whose parse succeeds, a float fps value that survives
validation always puts the exact token str(round(fps, 2)) into the
returned list — so fps 23.5 is emitted as the token 23.5, not the 23.50
of the claim — and a surviving video bitrate v always puts the exact
token str(v)+"M" into the list; for every real audio codec variant a
surviving int bitrate b always puts the exact token str(b)+"k" into the
list; and on a concrete request shape those tokens sit directly after
-r, -ab and -vb respectively. -/
theorem c10_token_formats :
    (∀ c ∈ videoRealCodecs, ∀ (opt : Sdict) (l : List PyVal) (q : PyQ),
      parseOptions c opt = .ok l →
      dGet? (videoRangeCheck (safeOptions (codecEnc c) opt)) "fps"
        = some (.vfloat q) →
      PyVal.vstr (pyFloatStr (pyRound2 q)) ∈ l)
    ∧ (∀ c ∈ videoRealCodecs, ∀ (opt : Sdict) (l : List PyVal) (q : PyQ),
      parseOptions c opt = .ok l →
      dGet? (videoRangeCheck (safeOptions (codecEnc c) opt)) "bitrate"
        = some (.vfloat q) →
      PyVal.vstr (pyFloatStr q ++ "M") ∈ l)
    ∧ (∀ c ∈ audioRealCodecs, ∀ (opt : Sdict) (l : List PyVal) (b : Int),
      parseOptions c opt = .ok l →
      dGet? (audioRangeCheck (safeOptions (codecEnc c) opt)) "bitrate"
        = some (.vint b) →
      PyVal.vstr (toString b ++ "k") ∈ l)
    ∧ (∀ q : PyQ, 0 < q.den → q.den ≤ q.num → q.num ≤ 120 * q.den →
      parseOptions .h264
        [("codec", .vstr "h264"), ("fps", .vfloat q),
         ("src_width", .vint 640), ("src_height", .vint 480),
         ("max_width", .vint 640), ("max_height", .vint 480)]
      = .ok [.vstr "-vcodec", .vstr "libx264", .vstr "-pix_fmt",
             .vstr "yuv420p", .vstr "-r", .vstr (pyFloatStr (pyRound2 q)),
             .vstr "-s", .vstr "640x480", .vstr "-aspect", .vstr "640:480"])
    ∧ (∀ b : Int, 8 ≤ b → b ≤ 512 →
      parseOptions .mp3 [("codec", .vstr "mp3"), ("bitrate", .vint b)]
      = .ok [.vstr "-acodec", .vstr "libmp3lame", .vstr "-ab",
             .vstr (toString b ++ "k")])
    ∧ (∀ q : PyQ, 0 < q.den → q.den ≤ 10 * q.num → q.num ≤ 200 * q.den →
      parseOptions .h264
        [("codec", .vstr "h264"), ("bitrate", .vfloat q),
         ("src_width", .vint 640), ("src_height", .vint 480),
         ("max_width", .vint 640), ("max_height", .vint 480)]
      = .ok [.vstr "-vcodec", .vstr "libx264", .vstr "-pix_fmt",
             .vstr "yuv420p", .vstr "-vb", .vstr (pyFloatStr q ++ "M"),
             .vstr "-s", .vstr "640x480", .vstr "-aspect",
             .vstr "640:480"]) := by
  refine ⟨?_, ?_, ?_, fpsToken_general, audioBitrateToken_general,
    videoBitrateToken_general⟩
  · intro c hc opt l q hok hq
    fin_cases hc <;>
      first
        | exact (videoParse_token_mem _ _ _ idPre_keeps hok).1 q hq
        | exact (videoParse_token_mem _ _ _ mpegPre_keeps hok).1 q hq
  · intro c hc opt l q hok hq
    fin_cases hc <;>
      first
        | exact (videoParse_token_mem _ _ _ idPre_keeps hok).2 q hq
        | exact (videoParse_token_mem _ _ _ mpegPre_keeps hok).2 q hq
  · intro c hc opt l b hok hbr
    fin_cases hc <;>
      exact audioParse_k_token _ _ _ _ (by decide) hok hbr

/-- C10 amended witness: fps 23.5 (the exact double 47/2) puts the token
23.5 into the h264 output, audio bitrate 512 puts 512k into the mp3
output, video bitrate 2.5 puts 2.5M into the h264 output, and the
concrete-shape parts pin those tokens directly after -r, -ab and -vb. -/
theorem c10_token_formats_witness :
    PyVal.vstr (pyFloatStr (pyRound2 ⟨47, 2⟩)) ∈
      [PyVal.vstr "-vcodec", .vstr "libx264", .vstr "-pix_fmt",
       .vstr "yuv420p", .vstr "-r", .vstr "23.5",
       .vstr "-s", .vstr "640x480", .vstr "-aspect", .vstr "640:480"]
    ∧ PyVal.vstr (pyFloatStr ⟨5, 2⟩ ++ "M") ∈
      [PyVal.vstr "-vcodec", .vstr "libx264", .vstr "-pix_fmt",
       .vstr "yuv420p", .vstr "-vb", .vstr "2.5M",
       .vstr "-s", .vstr "640x480", .vstr "-aspect", .vstr "640:480"]
    ∧ PyVal.vstr (toString (512 : Int) ++ "k") ∈
      [PyVal.vstr "-acodec", .vstr "libmp3lame", .vstr "-ab",
       .vstr "512k"]
    ∧ parseOptions .h264
      [("codec", .vstr "h264"), ("fps", .vfloat ⟨47, 2⟩),
       ("src_width", .vint 640), ("src_height", .vint 480),
       ("max_width", .vint 640), ("max_height", .vint 480)]
    = .ok [.vstr "-vcodec", .vstr "libx264", .vstr "-pix_fmt",
           .vstr "yuv420p", .vstr "-r", .vstr "23.5",
           .vstr "-s", .vstr "640x480", .vstr "-aspect", .vstr "640:480"]
    ∧ parseOptions .mp3 [("codec", .vstr "mp3"), ("bitrate", .vint 512)]
      = .ok [.vstr "-acodec", .vstr "libmp3lame", .vstr "-ab",
             .vstr "512k"]
    ∧ parseOptions .h264
        [("codec", .vstr "h264"), ("bitrate", .vfloat ⟨5, 2⟩),
         ("src_width", .vint 640), ("src_height", .vint 480),
         ("max_width", .vint 640), ("max_height", .vint 480)]
      = .ok [.vstr "-vcodec", .vstr "libx264", .vstr "-pix_fmt",
             .vstr "yuv420p", .vstr "-vb", .vstr "2.5M",
             .vstr "-s", .vstr "640x480", .vstr "-aspect",
             .vstr "640:480"] :=
  ⟨c10_token_formats.1 .h264 (by decide)
      [("codec", .vstr "h264"), ("fps", .vfloat ⟨47, 2⟩),
       ("src_width", .vint 640), ("src_height", .vint 480),
       ("max_width", .vint 640), ("max_height", .vint 480)]
      [.vstr "-vcodec", .vstr "libx264", .vstr "-pix_fmt",
       .vstr "yuv420p", .vstr "-r", .vstr "23.5",
       .vstr "-s", .vstr "640x480", .vstr "-aspect", .vstr "640:480"]
      ⟨47, 2⟩ (by decide) (by decide),
   c10_token_formats.2.1 .h264 (by decide)
      [("codec", .vstr "h264"), ("bitrate", .vfloat ⟨5, 2⟩),
       ("src_width", .vint 640), ("src_height", .vint 480),
       ("max_width", .vint 640), ("max_height", .vint 480)]
      [.vstr "-vcodec", .vstr "libx264", .vstr "-pix_fmt",
       .vstr "yuv420p", .vstr "-vb", .vstr "2.5M",
       .vstr "-s", .vstr "640x480", .vstr "-aspect", .vstr "640:480"]
      ⟨5, 2⟩ (by decide) (by decide),
   c10_token_formats.2.2.1 .mp3 (by decide)
      [("codec", .vstr "mp3"), ("bitrate", .vint 512)]
      [.vstr "-acodec", .vstr "libmp3lame", .vstr "-ab", .vstr "512k"]
      512 (by decide) (by decide),
   (c10_token_formats.2.2.2.1 ⟨47, 2⟩ (by decide) (by decide)
      (by decide)).trans (by decide),
   (c10_token_formats.2.2.2.2.1 512 (by decide) (by decide)).trans
      (by decide),
   (c10_token_formats.2.2.2.2.2 ⟨5, 2⟩ (by decide) (by decide)
      (by decide)).trans (by decide)⟩

/-- C7: for every codec schema and every raw option mapping, every key
retained by safe_options is declared and its value has the declared type
(unknown keys and failed coercions are dropped; safe_options is a total
function, so it never raises). -/
theorem c7_safe_options_typed (schema : Schema) (opts : Sdict) (k : String)
    (v : PyVal) (h : dGet? (safeOptions schema opts) k = some v) :
    ∃ t, sLookup schema k = some t ∧ hasPyType v t :=
  safeFold_typed schema opts [] (fun _ _ hh => by simp [dGet?] at hh) k v h

/-- C7 witness: a raw request with a coercible declared key and an unknown
key, checked at the vorbis schema. -/
theorem c7_witness :
    ∃ t, sLookup vorbisEnc "quality" = some t ∧ hasPyType (PyVal.vint 3) t :=
  c7_safe_options_typed vorbisEnc
    [("quality", .vstr "3"), ("junk", .vint 1)] "quality" (.vint 3)
    (by decide)

end AVC
